import Mathlib

/-!
# Payment signatures and settlement of `courses-backend`

A shallow embedding of `pkg/payment/fondy/fondy.go`: the signature routine
`generateSignature`, the two structures it is applied to (`checkoutRequest`,
`Callback`), signature validation and payment-link generation; of the orders of
`internal/domain/order.go` and the entitlement update of
`internal/repository/students_mongo.go`; of the student identity middleware of
`internal/delivery/http/v1/middleware.go`; and of the settlement of a callback
as the specification describes it. The properties that the specification states
of them follow the definitions.

Modelling conventions.

* A Go `string` is a Lean `String`; its bytes are its UTF-8 encoding. The order
  `≤` on `String` compares code points lexicographically, which on UTF-8
  encodings is the byte-wise order that `sort.Strings` uses.
* A Go `int` is an `Int` (no arithmetic is performed on it here, it is only
  printed).
* A Go `map[string]interface{}` is an association list in iteration order; the
  dynamic values are the type `Value`.
* `crypto/sha1` is the SHA-1 function of FIPS 180-4 on bytes, with 32-bit words
  held in `Nat` and reduced modulo `2 ^ 32`.
-/

namespace Courses

/-! ## SHA-1 (`crypto/sha1`) and hexadecimal printing (`fmt.Sprintf("%x", _)`) -/

/-- Left rotation of a 32-bit word by `n` bits. -/
def rotl32 (x n : Nat) : Nat := ((x <<< n) ||| (x >>> (32 - n))) % 2 ^ 32

/-- SHA-1 padding: the byte `0x80`, zero bytes up to 56 modulo 64, then the bit
length of the message as a 64-bit big-endian integer. -/
def sha1Pad (msg : List Nat) : List Nat :=
  msg ++ [0x80] ++ List.replicate ((119 - msg.length % 64) % 64) 0
    ++ (List.range 8).map (fun i => (8 * msg.length) >>> (8 * (7 - i)) % 256)

/-- Big-endian 32-bit word of four bytes. -/
def beWord : List Nat → Nat
  | [a, b, c, d] => ((a * 256 + b) * 256 + c) * 256 + d
  | _ => 0

/-- The first `k` consecutive chunks of `n` elements of a list. -/
def chunks (n : Nat) : Nat → List Nat → List (List Nat)
  | 0, _ => []
  | k + 1, l => l.take n :: chunks n k (l.drop n)

/-- Message schedule, newest word first: `k` more words, each the rotation by
one of the exclusive or of the words 3, 8, 14 and 16 places back. -/
def schedule : Nat → List Nat → List Nat
  | 0, w => w
  | k + 1, w =>
    schedule k (rotl32 (w.getD 2 0 ^^^ w.getD 7 0 ^^^ w.getD 13 0 ^^^ w.getD 15 0) 1 :: w)

/-- The five working words of SHA-1. -/
structure Sha1State where
  a : Nat
  b : Nat
  c : Nat
  d : Nat
  e : Nat
deriving DecidableEq, Repr

/-- Round function of round `t`. -/
def sha1F (t b c d : Nat) : Nat :=
  if t < 20 then (b &&& c) ||| ((b ^^^ 0xFFFFFFFF) &&& d)
  else if t < 40 then b ^^^ c ^^^ d
  else if t < 60 then (b &&& c) ||| (b &&& d) ||| (c &&& d)
  else b ^^^ c ^^^ d

/-- Round constant of round `t`. -/
def sha1K (t : Nat) : Nat :=
  if t < 20 then 0x5A827999 else if t < 40 then 0x6ED9EBA1
  else if t < 60 then 0x8F1BBCDC else 0xCA62C1D6

/-- One round, on the pair of the round number and its schedule word. -/
def sha1Round (s : Sha1State) (tw : Nat × Nat) : Sha1State :=
  { a := (rotl32 s.a 5 + sha1F tw.1 s.b s.c s.d + s.e + sha1K tw.1 + tw.2) % 2 ^ 32
    b := s.a
    c := rotl32 s.b 30
    d := s.c
    e := s.d }

/-- Compression of one 64-byte block into the chaining value `h`. -/
def sha1Block (h : Sha1State) (block : List Nat) : Sha1State :=
  let w := (schedule 64 ((chunks 4 16 block).map beWord).reverse).reverse
  let s := ((List.range 80).zip w).foldl sha1Round h
  { a := (h.a + s.a) % 2 ^ 32, b := (h.b + s.b) % 2 ^ 32, c := (h.c + s.c) % 2 ^ 32,
    d := (h.d + s.d) % 2 ^ 32, e := (h.e + s.e) % 2 ^ 32 }

/-- Initial chaining value. -/
def sha1Init : Sha1State :=
  { a := 0x67452301, b := 0xEFCDAB89, c := 0x98BADCFE, d := 0x10325476, e := 0xC3D2E1F0 }

/-- The four bytes of a 32-bit word, most significant first. -/
def wordBytes (w : Nat) : List Nat :=
  [w >>> 24 % 256, w >>> 16 % 256, w >>> 8 % 256, w % 256]

/-- The 20-byte SHA-1 digest of a byte string: `hash.Write(msg); hash.Sum(nil)`. -/
def sha1Sum (msg : List Nat) : List Nat :=
  let p := sha1Pad msg
  let s := (chunks 64 (p.length / 64) p).foldl sha1Block sha1Init
  wordBytes s.a ++ wordBytes s.b ++ wordBytes s.c ++ wordBytes s.d ++ wordBytes s.e

/-- The lowercase hexadecimal digits. -/
def hexDigits : List Char := "0123456789abcdef".data

/-- Hexadecimal digit of a value below 16. -/
def hexDigit (n : Nat) : Char := hexDigits.getD n '0'

/-- Two lowercase hexadecimal digits per byte: `fmt.Sprintf("%x", bytes)`. -/
def hexEncode (bs : List Nat) : String :=
  ⟨bs.flatMap (fun b => [hexDigit (b / 16), hexDigit (b % 16)])⟩

/-- The bytes of a string: `[]byte(s)`, the UTF-8 encoding. -/
def strBytes (s : String) : List Nat :=
  (s.data.flatMap String.utf8EncodeChar).map UInt8.toNat

/-! ## Dynamic values and maps -/

/-- A dynamic value held by an `interface{}`. `struct mapText text` stands for a
value that the package `structs` converts when it stores it, a struct or a
pointer to a struct with exported fields: it is given by the text `mapText`
that the verb `%v` prints for the map of its fields, and by the text that `%v`
prints for the value itself. `other text` stands for a value of any further
dynamic type, which `structs` stores as it is, given by the text that `%v`
prints for it. -/
inductive Value where
  | str (s : String)
  | int (n : Int)
  | bool (b : Bool)
  | nil
  | struct (mapText : String) (text : String)
  | other (text : String)
deriving DecidableEq, Repr

/-- The text of `fmt.Sprintf("%v", v)`. -/
def fmtV : Value → String
  | Value.str s => s
  | Value.int n => toString n
  | Value.bool b => if b then "true" else "false"
  | Value.nil => "<nil>"
  | Value.struct _ text => text
  | Value.other text => text

/-- The method `nested` of the package `structs` on the value of a field of
type `interface{}`: a struct, or a pointer to a struct, with exported fields is
replaced by the map of its fields, which is then a value of a further dynamic
type; any other value is stored as it is. -/
def nested : Value → Value
  | Value.struct mapText _ => Value.other mapText
  | v => v

/-- A `map[string]interface{}`, listed in the order in which `range` visits it. -/
abbrev Params := List (String × Value)

/-- Indexing `params[key]`: the zero value `nil` when the key is absent. -/
def lookup : Params → String → Value
  | [], _ => Value.nil
  | (k, v) :: rest, key => if k = key then v else lookup rest key

/-- The statement `delete(params, key)`. -/
def delete (params : Params) (key : String) : Params :=
  params.filter (fun kv => kv.1 ≠ key)

/-- The call `sort.Strings(keys)`: the keys in ascending order. -/
def sortStrings (keys : List String) : List String :=
  keys.insertionSort (· ≤ ·)

/-! ## `generateSignature` -/

/-- The body of the loop over the sorted keys in `generateSignature`: a value
whose dynamic type is not `string` is appended in its `%v` form, an empty string
is skipped, any other string is appended. -/
def appendValue (params : Params) (values : List String) (key : String) : List String :=
  match lookup params key with
  | Value.str value => if value = "" then values else values ++ [value]
  | v => values ++ [fmtV v]

/-- The string that `generateSignature` hashes. -/
def signatureString (params : Params) (password : String) : String :=
  let keys := params.foldl (fun keys kv => keys ++ [kv.1]) []
  let keys := sortStrings keys
  let values := keys.foldl (appendValue params) []
  let newValues := [password] ++ values
  "|".intercalate newValues

/-- The function `generateSignature(params, password)`. -/
def generateSignature (params : Params) (password : String) : String :=
  hexEncode (sha1Sum (strBytes (signatureString params password)))

/-! ## The specification of the signature codec (section 4.1) -/

/-- The token a value contributes according to the specification: none for the
empty string, the string itself for any other string, the text form for a value
that is not a string. -/
def token : Value → Option String
  | Value.str s => if s = "" then none else some s
  | v => some (fmtV v)

/-- The signed string according to the specification, for the key list `ks`:
the secret first, then the tokens of the keys in the order of `ks`, joined by
vertical bars. -/
def specSignedString (ks : List String) (params : Params) (secret : String) : String :=
  "|".intercalate (secret :: ks.filterMap (fun k => token (lookup params k)))


/-! ## The structures of `fondy.go` -/

/-- The struct `checkoutRequest`. -/
structure checkoutRequest where
  OrderId : String
  MerchantId : String
  OrderDesc : String
  Signature : String
  Amount : String
  Currency : String
  ResponseURL : String
  ServerCallbackURL : String
  SenderEmail : String
  Language : String
  ProductId : String
deriving DecidableEq, Repr

/-- The struct `interimResponse`. -/
structure interimResponse where
  Status : String
  CheckoutURL : String
  PaymentId : String
  ErrorMessage : String
deriving DecidableEq, Repr

/-- The struct `Callback`. The field `ResponseCode` has the type `interface{}`
and holds a dynamic value. -/
structure Callback where
  OrderId : String
  MerchantId : Int
  Amount : String
  Currency : String
  OrderStatus : String
  ResponseStatus : String
  Signature : String
  TranType : String
  SenderCellPhone : String
  SenderAccount : String
  CardBin : Int
  MaskedCard : String
  CardType : String
  RRN : String
  ApprovalCode : String
  ResponseCode : Value
  ResponseDescription : String
  ReversalAmount : String
  SettlementAmount : String
  SettlementCurrency : String
  OrderTime : String
  SettlementDate : String
  ECI : String
  Fee : String
  PaymentSystem : String
  SenderEmail : String
  PaymentId : Int
  ActualAmount : String
  ActualCurrency : String
  MerchantData : String
  VerificationStatus : String
  Rectoken : String
  RectokenLifetime : String
  ProductId : String
  AdditionalInfo : String
  ResponseSignatureString : String
deriving DecidableEq, Repr

/-- The call `structs.Map(r)` on a `checkoutRequest`: one entry per field, under
the name of the Go field (the struct carries no `structs` tags). -/
def checkoutRequest.structsMap (r : checkoutRequest) : Params :=
  [("OrderId", Value.str r.OrderId),
   ("MerchantId", Value.str r.MerchantId),
   ("OrderDesc", Value.str r.OrderDesc),
   ("Signature", Value.str r.Signature),
   ("Amount", Value.str r.Amount),
   ("Currency", Value.str r.Currency),
   ("ResponseURL", Value.str r.ResponseURL),
   ("ServerCallbackURL", Value.str r.ServerCallbackURL),
   ("SenderEmail", Value.str r.SenderEmail),
   ("Language", Value.str r.Language),
   ("ProductId", Value.str r.ProductId)]

/-- The call `structs.Map(c)` on a `Callback`: one entry per field, under the
name of the Go field. The fields of type `string` and `int` are stored as they
are; the value of the field `ResponseCode`, of type `interface{}`, is stored as
`nested` converts it. -/
def Callback.structsMap (c : Callback) : Params :=
  [("OrderId", Value.str c.OrderId),
   ("MerchantId", Value.int c.MerchantId),
   ("Amount", Value.str c.Amount),
   ("Currency", Value.str c.Currency),
   ("OrderStatus", Value.str c.OrderStatus),
   ("ResponseStatus", Value.str c.ResponseStatus),
   ("Signature", Value.str c.Signature),
   ("TranType", Value.str c.TranType),
   ("SenderCellPhone", Value.str c.SenderCellPhone),
   ("SenderAccount", Value.str c.SenderAccount),
   ("CardBin", Value.int c.CardBin),
   ("MaskedCard", Value.str c.MaskedCard),
   ("CardType", Value.str c.CardType),
   ("RRN", Value.str c.RRN),
   ("ApprovalCode", Value.str c.ApprovalCode),
   ("ResponseCode", nested c.ResponseCode),
   ("ResponseDescription", Value.str c.ResponseDescription),
   ("ReversalAmount", Value.str c.ReversalAmount),
   ("SettlementAmount", Value.str c.SettlementAmount),
   ("SettlementCurrency", Value.str c.SettlementCurrency),
   ("OrderTime", Value.str c.OrderTime),
   ("SettlementDate", Value.str c.SettlementDate),
   ("ECI", Value.str c.ECI),
   ("Fee", Value.str c.Fee),
   ("PaymentSystem", Value.str c.PaymentSystem),
   ("SenderEmail", Value.str c.SenderEmail),
   ("PaymentId", Value.int c.PaymentId),
   ("ActualAmount", Value.str c.ActualAmount),
   ("ActualCurrency", Value.str c.ActualCurrency),
   ("MerchantData", Value.str c.MerchantData),
   ("VerificationStatus", Value.str c.VerificationStatus),
   ("Rectoken", Value.str c.Rectoken),
   ("RectokenLifetime", Value.str c.RectokenLifetime),
   ("ProductId", Value.str c.ProductId),
   ("AdditionalInfo", Value.str c.AdditionalInfo),
   ("ResponseSignatureString", Value.str c.ResponseSignatureString)]

/-- The method `Callback.Success`. -/
def Callback.Success (c : Callback) : Bool := c.ResponseStatus == "success"

/-- The method `Callback.PaymentApproved`. -/
def Callback.PaymentApproved (c : Callback) : Bool := c.OrderStatus == "approved"

/-- The method `checkoutRequest.setSignature`: the request after the call. -/
def checkoutRequest.setSignature (r : checkoutRequest) (password : String) : checkoutRequest :=
  let params := r.structsMap
  { r with Signature := generateSignature params password }

/-- The map that `validateSignature` signs: all fields but `Signature` and
`ResponseSignatureString`. -/
def Callback.signedParams (c : Callback) : Params :=
  let params := c.structsMap
  let params := delete params "Signature"
  delete params "ResponseSignatureString"

/-- The method `Callback.validateSignature`. -/
def Callback.validateSignature (c : Callback) (password : String) : Bool :=
  c.Signature == generateSignature c.signedParams password

/-- The struct `FondyClient`. -/
structure FondyClient where
  merchantId : String
  merchantPassword : String
deriving DecidableEq, Repr

/-- An argument of type `interface{}` as `ValidateCallback` sees it: a value of
dynamic type `Callback`, or a value of any other dynamic type. -/
inductive Input where
  | callback (c : Callback)
  | other (v : Value)
deriving DecidableEq, Repr

/-- The method `FondyClient.ValidateCallback`: `none` is the `nil` error, `some
msg` an error with that message. -/
def FondyClient.ValidateCallback (c : FondyClient) (input : Input) : Option String :=
  match input with
  | Input.other _ => some "invalid callback data"
  | Input.callback callback =>
    if !callback.validateSignature c.merchantPassword then some "invalid signature"
    else none

/-- Modelled from the spec: the struct `payment.GeneratePaymentLinkInput` is
declared in `pkg/payment`, which is not among the sources. Its fields are those
that `GeneratePaymentLink` reads; the amount is an unsigned integer of minor
currency units (section 3). -/
structure GeneratePaymentLinkInput where
  OrderId : String
  Amount : Nat
  Currency : String
  OrderDesc : String
  CallbackURL : String
  ResponseURL : String
deriving DecidableEq, Repr

/-- What the exchange with the provider yields for a submitted request: an error
of `http.Post`, of `ioutil.ReadAll` or of `json.Unmarshal`, or the decoded
response. -/
inductive Exchange where
  | postError (err : String)
  | readError (err : String)
  | decodeError (err : String)
  | decoded (resp : interimResponse)
deriving DecidableEq, Repr

/-- The constant `languageRU`. -/
def languageRU : String := "ru"

/-- The constant `statusSuccess`. -/
def statusSuccess : String := "success"

/-- The request that `GeneratePaymentLink` builds and signs. -/
def FondyClient.checkoutReq (c : FondyClient) (input : GeneratePaymentLinkInput) :
    checkoutRequest :=
  let checkoutReq : checkoutRequest :=
    { OrderId := input.OrderId
      MerchantId := c.merchantId
      OrderDesc := input.OrderDesc
      Signature := ""
      Amount := toString input.Amount
      Currency := input.Currency
      ResponseURL := input.ResponseURL
      ServerCallbackURL := input.CallbackURL
      SenderEmail := ""
      Language := languageRU
      ProductId := "" }
  checkoutReq.setSignature c.merchantPassword

/-- The method `FondyClient.GeneratePaymentLink`, given the provider as a
function `post` from the submitted request to the outcome of the exchange. The
result is the returned string and the returned error (`none` for `nil`). -/
def FondyClient.GeneratePaymentLink (c : FondyClient) (input : GeneratePaymentLinkInput)
    (post : checkoutRequest → Exchange) : String × Option String :=
  match post (c.checkoutReq input) with
  | Exchange.postError err => ("", some err)
  | Exchange.readError err => ("", some err)
  | Exchange.decodeError err => ("", some err)
  | Exchange.decoded resp =>
    if resp.Status = statusSuccess then (resp.CheckoutURL, none)
    else ("", some resp.ErrorMessage)

/-- The zero value `Callback{}`: every string empty, every integer 0, a `nil`
`ResponseCode`. -/
def Callback.zero : Callback :=
  { OrderId := "", MerchantId := 0, Amount := "", Currency := "", OrderStatus := "",
    ResponseStatus := "", Signature := "", TranType := "", SenderCellPhone := "",
    SenderAccount := "", CardBin := 0, MaskedCard := "", CardType := "", RRN := "",
    ApprovalCode := "", ResponseCode := Value.nil, ResponseDescription := "",
    ReversalAmount := "", SettlementAmount := "", SettlementCurrency := "", OrderTime := "",
    SettlementDate := "", ECI := "", Fee := "", PaymentSystem := "", SenderEmail := "",
    PaymentId := 0, ActualAmount := "", ActualCurrency := "", MerchantData := "",
    VerificationStatus := "", Rectoken := "", RectokenLifetime := "", ProductId := "",
    AdditionalInfo := "", ResponseSignatureString := "" }

/-- The zero value `checkoutRequest{}`. -/
def checkoutRequest.zero : checkoutRequest :=
  { OrderId := "", MerchantId := "", OrderDesc := "", Signature := "", Amount := "",
    Currency := "", ResponseURL := "", ServerCallbackURL := "", SenderEmail := "",
    Language := "", ProductId := "" }

/-- SHA-1 does not collide on the strings `a` and `b`: their digests are equal
only if the strings are. -/
def NoCollision (a b : String) : Prop :=
  sha1Sum (strBytes a) = sha1Sum (strBytes b) → a = b

/-- A sample callback of a declined payment, not yet signed. -/
def sampleCallback : Callback :=
  { Callback.zero with
    OrderId := "6008153f3dab4fb0573d1f96"
    MerchantId := 1396424
    Amount := "100"
    Currency := "USD"
    OrderStatus := "declined"
    ResponseStatus := "success"
    ResponseCode := Value.str "1011" }

/-- The sample callback with its signature under the secret "secret", the
SHA-1 of "secret|100|0|USD|1396424|6008153f3dab4fb0573d1f96|declined|0|1011|success". -/
def sampleSigned : Callback :=
  { sampleCallback with Signature := "10a617eac53ffcd8c75a0e3a5db57341f81971cc" }

/-- The signed sample callback with the response code replaced by the integer
1011, the signature kept. -/
def tamperedResponseCode : Callback :=
  { sampleSigned with ResponseCode := Value.int 1011 }

/-- The signed sample callback with the amount replaced by "1", the signature
kept. -/
def tamperedAmount : Callback :=
  { sampleSigned with Amount := "1" }

/-- A checkout request for the order "1" that has not been signed. -/
def freshRequest : checkoutRequest :=
  { checkoutRequest.zero with OrderId := "1" }

/-- A checkout request for the order "1" whose `Signature` already holds a value. -/
def staleRequest : checkoutRequest :=
  { checkoutRequest.zero with OrderId := "1", Signature := "stale" }

/-- The number that a text of decimal digits denotes. -/
def decimalValue (s : String) : Nat :=
  s.data.foldl (fun acc ch => 10 * acc + (ch.toNat - 48)) 0

/-- A sample client. -/
def sampleClient : FondyClient := { merchantId := "1396424", merchantPassword := "secret" }

/-- A sample input of `GeneratePaymentLink`: 15.00 USD for the order "1". -/
def sampleLinkInput : GeneratePaymentLinkInput :=
  { OrderId := "1", Amount := 1500, Currency := "USD", OrderDesc := "course",
    CallbackURL := "", ResponseURL := "" }

/-- The fields of a `Callback` under their wire names, the names in the `json`
tags of the struct, which are the names of the parameters that the provider
sends and signs; the values are those that `structs.Map` stores. -/
def Callback.wireMap (c : Callback) : Params :=
  [("order_id", Value.str c.OrderId),
   ("merchant_id", Value.int c.MerchantId),
   ("amount", Value.str c.Amount),
   ("currency", Value.str c.Currency),
   ("order_status", Value.str c.OrderStatus),
   ("response_status", Value.str c.ResponseStatus),
   ("signature", Value.str c.Signature),
   ("tran_type", Value.str c.TranType),
   ("sender_cell_phone", Value.str c.SenderCellPhone),
   ("sender_account", Value.str c.SenderAccount),
   ("card_bin", Value.int c.CardBin),
   ("masked_card", Value.str c.MaskedCard),
   ("card_type", Value.str c.CardType),
   ("rrn", Value.str c.RRN),
   ("approval_code", Value.str c.ApprovalCode),
   ("response_code", nested c.ResponseCode),
   ("response_description", Value.str c.ResponseDescription),
   ("reversal_amount", Value.str c.ReversalAmount),
   ("settlement_amount", Value.str c.SettlementAmount),
   ("settlement_currency", Value.str c.SettlementCurrency),
   ("order_time", Value.str c.OrderTime),
   ("settlement_date", Value.str c.SettlementDate),
   ("eci", Value.str c.ECI),
   ("fee", Value.str c.Fee),
   ("payment_system", Value.str c.PaymentSystem),
   ("sender_email", Value.str c.SenderEmail),
   ("payment_id", Value.int c.PaymentId),
   ("actual_amount", Value.str c.ActualAmount),
   ("actual_currency", Value.str c.ActualCurrency),
   ("merchant_data", Value.str c.MerchantData),
   ("verification_status", Value.str c.VerificationStatus),
   ("rectoken", Value.str c.Rectoken),
   ("rectoken_lifetime", Value.str c.RectokenLifetime),
   ("product_id", Value.str c.ProductId),
   ("additional_info", Value.str c.AdditionalInfo),
   ("response_signature_string", Value.str c.ResponseSignatureString)]

/-- The signed fields of a callback under their wire names: all but `signature`
and `response_signature_string`. -/
def Callback.wireSignedParams (c : Callback) : Params :=
  delete (delete c.wireMap "signature") "response_signature_string"

/-- Signing a callback by wire field name: the signature that section 4.1
prescribes for the fields as the provider names them. -/
def Callback.wireSignature (c : Callback) (secret : String) : String :=
  generateSignature c.wireSignedParams secret

/-- The sample callback with a retrieval reference number. -/
def rrnCallback : Callback :=
  { sampleCallback with RRN := "111111111111" }

/-! ## Orders (`internal/domain/order.go`)

An `ObjectID` is represented by its hexadecimal text, a `time.Time` by a
number. -/

/-- The constant `OrderStatusCreated`. -/
def OrderStatusCreated : String := "created"

/-- The constant `OrderStatusPaid`. -/
def OrderStatusPaid : String := "paid"

/-- The constant `OrderStatusFailed`. -/
def OrderStatusFailed : String := "failed"

/-- The constant `OrderStatusOther`. -/
def OrderStatusOther : String := "other"

/-- The struct `OrderStudentInfo`. -/
structure OrderStudentInfo where
  ID : String
  Name : String
  Email : String
deriving DecidableEq, Repr

/-- The struct `OrderOfferInfo`. -/
structure OrderOfferInfo where
  ID : String
  Name : String
deriving DecidableEq, Repr

/-- The struct `OrderPromoInfo`. -/
structure OrderPromoInfo where
  ID : String
  Code : String
deriving DecidableEq, Repr

/-- The struct `Transaction`. -/
structure Transaction where
  Status : String
  CreatedAt : Nat
  AdditionalInfo : String
deriving DecidableEq, Repr

/-- The struct `Order`. -/
structure Order where
  ID : String
  SchoolId : String
  Student : OrderStudentInfo
  Offer : OrderOfferInfo
  Promo : OrderPromoInfo
  CreatedAt : Nat
  Amount : Nat
  Currency : String
  Status : String
  Transactions : List Transaction
deriving DecidableEq, Repr

/-! ## Students (`internal/repository/students_mongo.go`) -/

/-- Modelled from the spec: the struct `domain.Student` is not among the sources.
A student is its id with the entitlement sets `availableCourses` and
`availableModules` that the repository updates. -/
structure Student where
  ID : String
  AvailableCourses : List String
  AvailableModules : List String
deriving DecidableEq, Repr

/-- The update operator `$addToSet` with `$each`: every id that is not yet in the
set is added. -/
def addToSet (set ids : List String) : List String :=
  ids.foldl (fun acc id => if id ∈ acc then acc else acc ++ [id]) set

/-- The method `StudentsRepo.GiveAccessToCoursesAndModules` on the collection of
students: `UpdateOne` changes the first document with the given id. -/
def GiveAccessToCoursesAndModules :
    List Student → String → List String → List String → List Student
  | [], _, _, _ => []
  | s :: rest, studentId, courseIds, moduleIds =>
    if s.ID = studentId then
      { s with AvailableModules := addToSet s.AvailableModules moduleIds
               AvailableCourses := addToSet s.AvailableCourses courseIds } :: rest
    else s :: GiveAccessToCoursesAndModules rest studentId courseIds moduleIds

/-! ## Settlement of a callback (sections 4.3, 4.4, 6 and 7 of the specification)

The handler of the callback endpoint and the payment service are not among the
sources; they are modelled from the specification. -/

/-- Modelled from the spec: an offer, "a purchasable bundle granting access to
one or more courses/modules" (the struct `domain.Offer` is not among the
sources). -/
structure Offer where
  ID : String
  Courses : List String
  Modules : List String
deriving DecidableEq, Repr

/-- Modelled from the spec: the state that settlement reads and writes, namely
the order store, the offers, the students with their entitlements, and the
queue of purchase confirmations (recipient and offer name). -/
structure Store where
  orders : List Order
  offers : List Offer
  students : List Student
  notifications : List (String × String)
deriving DecidableEq, Repr

/-- Modelled from the spec: the order statuses that the provider reports, as the
comment on the field `OrderStatus` of `Callback` lists them; any other status
is unrecognized. -/
def recognizedOrderStatuses : List String :=
  ["created", "processing", "declined", "approved", "expired", "reversed"]

/-- Modelled from the spec: section 4.3, step 3, the status that a callback
gives to an order in state `created`: `paid` when approved, otherwise `failed`,
or `other` if the order status is unrecognized. -/
def settledStatus (cb : Callback) : String :=
  if cb.PaymentApproved then OrderStatusPaid
  else if cb.OrderStatus ∈ recognizedOrderStatuses then OrderStatusFailed
  else OrderStatusOther

/-- Modelled from the spec: section 4.4, `getById`. -/
def getById (orders : List Order) (id : String) : Option Order :=
  orders.find? (fun o => o.ID == id)

/-- Modelled from the spec: section 4.4, `appendTransactionAndSetStatus`, on the
first order with the given id; without a status only the transaction is
appended. -/
def appendTransactionAndSetStatus :
    List Order → String → Option String → Transaction → List Order
  | [], _, _, _ => []
  | o :: rest, id, status, txn =>
    if o.ID == id then
      { o with Status := status.getD o.Status, Transactions := o.Transactions ++ [txn] } :: rest
    else o :: appendTransactionAndSetStatus rest id status txn

/-- Modelled from the spec: section 4.3, `settle`, for a validated callback, at
time `now`. An unknown order id changes nothing; an order that is not in state
`created` only gets a transaction record; an order in state `created` gets its
new status and the record, and on approval the student is granted the courses
and modules of the offer and a confirmation is queued. -/
def settle (st : Store) (now : Nat) (cb : Callback) : Store :=
  match getById st.orders cb.OrderId with
  | none => st
  | some order =>
    let txn : Transaction :=
      { Status := settledStatus cb, CreatedAt := now, AdditionalInfo := cb.AdditionalInfo }
    if order.Status ≠ OrderStatusCreated then
      { st with orders := appendTransactionAndSetStatus st.orders cb.OrderId none txn }
    else if cb.PaymentApproved then
      let offer := st.offers.find? (fun f => f.ID == order.Offer.ID)
      { st with
        orders := appendTransactionAndSetStatus st.orders cb.OrderId (some OrderStatusPaid) txn
        students := GiveAccessToCoursesAndModules st.students order.Student.ID
          (offer.elim [] Offer.Courses) (offer.elim [] Offer.Modules)
        notifications := st.notifications ++ [(order.Student.Email, order.Offer.Name)] }
    else
      { st with
        orders := appendTransactionAndSetStatus st.orders cb.OrderId
          (some (settledStatus cb)) txn }

/-- Modelled from the spec: section 6, the endpoint that accepts the provider
callback: status 200 and the settled state when the callback validates, a 4xx
status and the unchanged state when it does not. -/
def callbackEndpoint (cl : FondyClient) (st : Store) (now : Nat) (cb : Callback) :
    Nat × Store :=
  match cl.ValidateCallback (Input.callback cb) with
  | some _ => (400, st)
  | none => (200, settle st now cb)

/-- Modelled from the spec: section 7, the answer to a student who asks for the
lessons of a module: 200 when the module is among the student's modules, 403
otherwise. -/
def lessonsEndpoint (st : Store) (studentId moduleId : String) : Nat :=
  match st.students.find? (fun s => s.ID == studentId) with
  | some s => if moduleId ∈ s.AvailableModules then 200 else 403
  | none => 403

/-- The callback `cb` with the signature of its signed fields under `secret`. -/
def Callback.signedWith (cb : Callback) (secret : String) : Callback :=
  { cb with Signature := generateSignature cb.signedParams secret }

/-- A sample order in state `created`, named by the sample callback. -/
def sampleOrder : Order :=
  { ID := "6008153f3dab4fb0573d1f96", SchoolId := "s1",
    Student := { ID := "u1", Name := "Test Payment", Email := "payment@test.com" },
    Offer := { ID := "f1", Name := "Test Offer" },
    Promo := { ID := "", Code := "" },
    CreatedAt := 0, Amount := 100, Currency := "USD",
    Status := "created", Transactions := [] }

/-- A sample state: the sample order, of a student without any module, for an
offer of two modules. -/
def sampleStore : Store :=
  { orders := [sampleOrder]
    offers := [{ ID := "f1", Courses := ["c1"], Modules := ["m1", "m2"] }]
    students := [{ ID := "u1", AvailableCourses := [], AvailableModules := [] }]
    notifications := [] }

/-- The sample state in which the student already has the module `m1`. -/
def sampleStoreWithAccess : Store :=
  { sampleStore with
    students := [{ ID := "u1", AvailableCourses := ["c1"], AvailableModules := ["m1"] }] }

/-! ## Request context and student identity (`internal/delivery/http/v1/middleware.go`) -/

/-- The constant `studentCtx`. -/
def studentCtx : String := "userId"

/-- The part of a `gin.Context` that the middleware uses: the value of the
`Authorization` header of the request (empty when the header is absent) and the
map `Keys` of the values stored in the context. -/
structure Context where
  authorization : String
  Keys : Params
deriving DecidableEq, Repr

/-- The method `c.Get(key)`: the stored value, if the key is present. -/
def Context.Get (c : Context) (key : String) : Option Value :=
  (c.Keys.find? (fun kv => kv.1 == key)).map Prod.snd

/-- The method `c.Set(key, value)`. -/
def Context.Set (c : Context) (key : String) (value : Value) : Context :=
  { c with Keys := (key, value) :: delete c.Keys key }

/-- A `primitive.ObjectID`: an array of 12 bytes. -/
structure ObjectID where
  bytes : List Nat
deriving DecidableEq, Repr

/-- The zero value `primitive.ObjectID{}`. -/
def ObjectID.zero : ObjectID := ⟨List.replicate 12 0⟩

/-- The value of a hexadecimal digit, of either case. -/
def hexVal (ch : Char) : Option Nat :=
  if '0' ≤ ch ∧ ch ≤ '9' then some (ch.toNat - '0'.toNat)
  else if 'a' ≤ ch ∧ ch ≤ 'f' then some (ch.toNat - 'a'.toNat + 10)
  else if 'A' ≤ ch ∧ ch ≤ 'F' then some (ch.toNat - 'A'.toNat + 10)
  else none

/-- Decoding of hexadecimal text (`encoding/hex`): one byte per two digits,
nothing when a character is not a digit or a digit is left over. -/
def hexDecode : List Char → Option (List Nat)
  | [] => some []
  | [_] => none
  | hi :: lo :: rest =>
    match hexVal hi, hexVal lo, hexDecode rest with
    | some h, some l, some bs => some ((16 * h + l) :: bs)
    | _, _, _ => none

/-- The function `primitive.ObjectIDFromHex`: the id that a text of 24
hexadecimal digits denotes; `none` stands for a returned error. -/
def ObjectIDFromHex (s : String) : Option ObjectID :=
  if (strBytes s).length ≠ 24 then none
  else (hexDecode s.data).map ObjectID.mk

/-- The method `Handler.parseAuthHeader`, given the method `Parse` of the token
manager: the returned string and the returned error (`none` for `nil`). -/
def parseAuthHeader (Parse : String → String × Option String) (c : Context) :
    String × Option String :=
  let header := c.authorization
  if header = "" then ("", some "empty auth header")
  else
    let headerParts := header.splitOn " "
    if headerParts.length ≠ 2 ∨ headerParts.getD 0 "" ≠ "Bearer" then
      ("", some "invalid auth header")
    else if (headerParts.getD 1 "").length = 0 then ("", some "token is empty")
    else Parse (headerParts.getD 1 "")

/-- The method `Handler.studentIdentity`, given the helper `newResponse` and the
method `Parse` of the token manager, both declared outside the sources: after a
failed parse the response is written and the function goes on to store the id. -/
def studentIdentity (newResponse : Context → Nat → String → Context)
    (Parse : String → String × Option String) (c : Context) : Context :=
  let (id, err) := parseAuthHeader Parse c
  let c := match err with
    | some msg => newResponse c 401 msg
    | none => c
  c.Set studentCtx (Value.str id)

/-- The function `getStudentId`: the returned id and the returned error (`none`
for `nil`). -/
def getStudentId (c : Context) : ObjectID × Option String :=
  match c.Get studentCtx with
  | none => (ObjectID.zero, some "studentCtx not found")
  | some idFromCtx =>
    match idFromCtx with
    | Value.str idStr =>
      match ObjectIDFromHex idStr with
      | none => (ObjectID.zero, none)
      | some id => (id, none)
    | _ => (ObjectID.zero, some "studentCtx is of invalid type")

/-! ## Lemmas on `generateSignature` -/

theorem foldl_keys (params : Params) (acc : List String) :
    params.foldl (fun keys kv => keys ++ [kv.1]) acc = acc ++ params.map Prod.fst := by
  induction params generalizing acc with
  | nil => simp
  | cons kv rest ih => simp [ih]

theorem appendValue_eq (params : Params) (values : List String) (key : String) :
    appendValue params values key = values ++ (token (lookup params key)).toList := by
  unfold appendValue token
  cases lookup params key with
  | str s => by_cases h : s = "" <;> simp [h]
  | int n => simp
  | bool b => simp
  | nil => simp
  | struct m t => simp
  | other t => simp

theorem foldl_values (params : Params) (keys : List String) (acc : List String) :
    keys.foldl (appendValue params) acc
      = acc ++ keys.filterMap (fun k => token (lookup params k)) := by
  induction keys generalizing acc with
  | nil => simp
  | cons k rest ih =>
    rw [List.foldl_cons, ih, appendValue_eq, List.filterMap_cons]
    cases token (lookup params k) <;> simp

theorem signatureString_eq (params : Params) (password : String) :
    signatureString params password
      = specSignedString (sortStrings (params.map Prod.fst)) params password := by
  simp [signatureString, specSignedString, foldl_keys, foldl_values]

theorem sortStrings_eq_of_perm {ks keys : List String} (hperm : ks.Perm keys)
    (hsorted : ks.Sorted (· ≤ ·)) : sortStrings keys = ks :=
  List.eq_of_perm_of_sorted ((List.perm_insertionSort _ keys).trans hperm.symm)
    (List.sorted_insertionSort _ keys) hsorted

theorem length_wordBytes (w : Nat) : (wordBytes w).length = 4 := rfl

theorem length_sha1Sum (msg : List Nat) : (sha1Sum msg).length = 20 := by
  simp [sha1Sum, length_wordBytes]

theorem length_hexEncode (bs : List Nat) : (hexEncode bs).length = 2 * bs.length := by
  unfold hexEncode
  show (bs.flatMap _).length = _
  induction bs with
  | nil => rfl
  | cons b rest ih => simp [List.flatMap_cons, ih]; omega

theorem hexDigit_mem (n : Nat) : hexDigit n ∈ hexDigits := by
  unfold hexDigit
  by_cases h : n < hexDigits.length
  · rw [List.getD_eq_getElem _ _ h]; exact List.getElem_mem _
  · rw [List.getD_eq_default _ _ (by omega)]; decide

theorem hexEncode_chars (bs : List Nat) : ∀ ch ∈ (hexEncode bs).data, ch ∈ hexDigits := by
  intro ch hch
  simp only [hexEncode, List.mem_flatMap] at hch
  obtain ⟨b, _, hb⟩ := hch
  simp at hb
  rcases hb with rfl | rfl <;> exact hexDigit_mem _

theorem lookup_mem (params : Params) (k : String) (hk : k ∈ params.map Prod.fst) :
    (k, lookup params k) ∈ params := by
  induction params with
  | nil => simp at hk
  | cons kv rest ih =>
    obtain ⟨k', v⟩ := kv
    by_cases h : k' = k
    · subst h; simp [lookup]
    · have : k ∈ rest.map Prod.fst := by
        simp only [List.map_cons, List.mem_cons] at hk
        rcases hk with hk | hk
        · exact absurd hk.symm h
        · exact hk
      simp [lookup, h, ih this]

theorem filterMap_token_empty (params : Params) (ks : List String)
    (hks : ∀ k ∈ ks, k ∈ params.map Prod.fst)
    (hempty : ∀ kv ∈ params, kv.2 = Value.str "") :
    ks.filterMap (fun k => token (lookup params k)) = [] := by
  rw [List.filterMap_eq_nil_iff]
  intro k hk
  have h := hempty _ (lookup_mem params k (hks k hk))
  simp only at h
  simp [h, token]

/-! ## C1: the signature codec -/

/-- C1: `generateSignature(params, p)` is the lowercase hexadecimal text, 40
characters long, of the SHA-1 digest of the string that joins with a vertical bar
the password `p` and then, for the keys of `params` in ascending order `ks`, the
token of each key: a string value as it is, skipped when empty, any other value
in its default text form and never skipped (the integer 0 gives the token `0`).
When every value is the empty string the result is the hexadecimal SHA-1 of `p`. -/
theorem generateSignature_spec (params : Params) (p : String) (ks : List String)
    (hperm : ks.Perm (params.map Prod.fst)) (hsorted : ks.Sorted (· ≤ ·)) :
    generateSignature params p = hexEncode (sha1Sum (strBytes (specSignedString ks params p)))
    ∧ (generateSignature params p).length = 40
    ∧ (∀ ch ∈ (generateSignature params p).data, ch ∈ hexDigits)
    ∧ (∀ v, (∀ s, v ≠ Value.str s) → token v = some (fmtV v))
    ∧ token (Value.int 0) = some "0"
    ∧ (∀ s, token (Value.str s) = if s = "" then none else some s)
    ∧ ((∀ kv ∈ params, kv.2 = Value.str "") →
        generateSignature params p = hexEncode (sha1Sum (strBytes p))) := by
  have hsig : signatureString params p = specSignedString ks params p := by
    rw [signatureString_eq, sortStrings_eq_of_perm hperm hsorted]
  refine ⟨by rw [generateSignature, hsig], ?_, ?_, ?_, rfl, fun s => rfl, ?_⟩
  · rw [generateSignature, length_hexEncode, length_sha1Sum]
  · exact hexEncode_chars _
  · intro v hv
    cases v with
    | str s => exact absurd rfl (hv s)
    | int n => rfl
    | bool b => rfl
    | nil => rfl
    | struct m t => rfl
    | other t => rfl
  · intro hempty
    rw [generateSignature, hsig, specSignedString,
      filterMap_token_empty params ks (fun k hk => hperm.subset hk) hempty]
    rfl

set_option maxRecDepth 100000 in
/-- Witness of C1 on a map with a string, an integer 0, an empty string and a
`nil` value, listed out of order. -/
theorem generateSignature_spec_witness :
    generateSignature [("b", Value.str "x"), ("a", Value.int 0), ("c", Value.str ""),
        ("d", Value.nil)] "pw"
      = hexEncode (sha1Sum (strBytes "pw|0|x|<nil>"))
    ∧ generateSignature [("b", Value.str "x"), ("a", Value.int 0), ("c", Value.str ""),
        ("d", Value.nil)] "pw" = "fd01cbec30387ab187ec631fbb6b84af87500c11" :=
  ⟨(generateSignature_spec [("b", Value.str "x"), ("a", Value.int 0), ("c", Value.str ""),
      ("d", Value.nil)] "pw" ["a", "b", "c", "d"] (by decide) (by decide!)).1.trans (by decide!),
   by decide!⟩

/-! ## Lemmas on strings: joining, decimal text, hexadecimal text -/

theorem intercalate_go_data (acc sep : String) (ts : List String) :
    (String.intercalate.go acc sep ts).data
      = acc.data ++ ts.flatMap (fun t => sep.data ++ t.data) := by
  induction ts generalizing acc with
  | nil => simp [String.intercalate.go]
  | cons t rest ih =>
    simp [String.intercalate.go, ih, String.data_append, List.flatMap_cons, List.append_assoc]

/-- The characters of a joined string with a first element: the first element,
then every further element preceded by the separator. -/
theorem intercalate_cons_data (sep p : String) (ts : List String) :
    (sep.intercalate (p :: ts)).data = p.data ++ ts.flatMap (fun t => sep.data ++ t.data) := by
  simp [String.intercalate, intercalate_go_data]

/-- With enough fuel, `Nat.toDigitsCore` puts in front of `ds` a non-empty list
of decimal digits that denotes `n`. -/
theorem toDigitsCore_spec (fuel n : Nat) (ds : List Char) (h : n < fuel) :
    ∃ xs : List Char, Nat.toDigitsCore 10 fuel n ds = xs ++ ds ∧ xs ≠ []
      ∧ (∀ ch ∈ xs, ch.isDigit = true)
      ∧ xs.foldl (fun acc ch => 10 * acc + (ch.toNat - 48)) 0 = n := by
  have hdigit : ∀ d : Fin 10,
      (Nat.digitChar d).toNat - 48 = d ∧ (Nat.digitChar d).isDigit = true := by
    decide
  induction fuel generalizing n ds with
  | zero => omega
  | succ fuel ih =>
    have hd := hdigit ⟨n % 10, Nat.mod_lt _ (by decide)⟩
    simp only at hd
    simp only [Nat.toDigitsCore]
    by_cases h0 : n / 10 = 0
    · refine ⟨[Nat.digitChar (n % 10)], by simp [h0], by simp, by simpa using hd.2, ?_⟩
      simp only [List.foldl_cons, List.foldl_nil, hd.1]
      omega
    · have hlt : n / 10 < fuel := by omega
      obtain ⟨xs, hxs, hne, hch, hval⟩ := ih (n / 10) (Nat.digitChar (n % 10) :: ds) hlt
      refine ⟨xs ++ [Nat.digitChar (n % 10)], by simp [h0, hxs], by simp, ?_, ?_⟩
      · intro ch hmem
        rcases List.mem_append.1 hmem with hm | hm
        · exact hch ch hm
        · simp only [List.mem_singleton] at hm
          rw [hm]; exact hd.2
      · rw [List.foldl_append, hval]
        simp only [List.foldl_cons, List.foldl_nil, hd.1]
        omega

/-- The text of a natural number is a non-empty list of decimal digits that
denotes the number. -/
theorem natRepr_spec (n : Nat) :
    (toString n).data ≠ [] ∧ (∀ ch ∈ (toString n).data, ch.isDigit = true)
      ∧ decimalValue (toString n) = n := by
  unfold decimalValue
  obtain ⟨xs, hxs, hne, hch, hval⟩ := toDigitsCore_spec (n + 1) n [] (Nat.lt_succ_self n)
  have hdata : (toString n).data = xs := by
    show (Nat.repr n).data = xs
    simp [Nat.repr, Nat.toDigits, hxs, List.asString]
  rw [hdata]
  exact ⟨hne, hch, hval⟩

theorem natRepr_injective {m n : Nat} (h : toString m = toString n) : m = n := by
  rw [← (natRepr_spec m).2.2, ← (natRepr_spec n).2.2, h]

/-- The decimal text of an integer determines the integer. -/
theorem intRepr_injective {a b : Int} (h : toString a = toString b) : a = b := by
  have hneg : ∀ m : Nat, (toString (Int.negSucc m)).data = '-' :: (toString (m + 1)).data := by
    intro m
    show ("-" ++ toString (Nat.succ m)).data = _
    rw [String.data_append]; rfl
  have hpos : ∀ m : Nat, toString (Int.ofNat m) = toString m := fun m => rfl
  have hmixed : ∀ m k : Nat, toString (Int.ofNat m) ≠ toString (Int.negSucc k) := by
    intro m k hmk
    have hd := congrArg String.data hmk
    rw [hpos, hneg] at hd
    obtain ⟨hne, hch, _⟩ := natRepr_spec m
    cases hdata : (toString m).data with
    | nil => exact hne hdata
    | cons ch rest =>
      rw [hdata] at hd hch
      have : ch = '-' := (List.cons.inj hd).1
      have hdig := hch ch (List.mem_cons_self _ _)
      rw [this] at hdig
      exact absurd hdig (by decide)
  cases a with
  | ofNat m =>
    cases b with
    | ofNat k => rw [hpos, hpos] at h; rw [natRepr_injective h]
    | negSucc k => exact absurd h (hmixed m k)
  | negSucc m =>
    cases b with
    | ofNat k => exact absurd h.symm (hmixed k m)
    | negSucc k =>
      have hd := congrArg String.data h
      rw [hneg, hneg] at hd
      have := natRepr_injective (String.ext (List.cons.inj hd).2)
      have hmk : m = k := by omega
      rw [hmk]

theorem hexDigit_injective : ∀ a b : Fin 16, hexDigit a = hexDigit b → a = b := by decide

theorem hexEncode_injective (bs cs : List Nat) (hbs : ∀ b ∈ bs, b < 256)
    (hcs : ∀ b ∈ cs, b < 256) (h : hexEncode bs = hexEncode cs) : bs = cs := by
  have hdata : bs.flatMap (fun b => [hexDigit (b / 16), hexDigit (b % 16)])
      = cs.flatMap (fun b => [hexDigit (b / 16), hexDigit (b % 16)]) := by
    simpa [hexEncode] using congrArg String.data h
  clear h
  induction bs generalizing cs with
  | nil =>
    cases cs with
    | nil => rfl
    | cons c rest => simp [List.flatMap_cons] at hdata
  | cons b rest ih =>
    cases cs with
    | nil => simp [List.flatMap_cons] at hdata
    | cons c rest' =>
      simp only [List.flatMap_cons, List.cons_append, List.nil_append, List.cons.injEq] at hdata
      obtain ⟨h1, h2, h3⟩ := hdata
      have hb : b < 256 := hbs b (List.mem_cons_self _ _)
      have hc : c < 256 := hcs c (List.mem_cons_self _ _)
      have e1 := hexDigit_injective ⟨b / 16, by omega⟩ ⟨c / 16, by omega⟩ h1
      have e2 := hexDigit_injective ⟨b % 16, by omega⟩ ⟨c % 16, by omega⟩ h2
      simp only [Fin.mk.injEq] at e1 e2
      have hbc : b = c := by omega
      rw [hbc, ih rest' (fun x hx => hbs x (List.mem_cons_of_mem _ hx))
        (fun x hx => hcs x (List.mem_cons_of_mem _ hx)) h3]

theorem sha1Sum_lt (msg : List Nat) : ∀ b ∈ sha1Sum msg, b < 256 := by
  intro b hb
  simp only [sha1Sum, wordBytes, List.mem_append, List.mem_cons, List.mem_singleton,
    List.not_mem_nil, or_false] at hb
  have h256 : ∀ x : Nat, x % 256 < 256 := fun x => Nat.mod_lt _ (by decide)
  rcases hb with (((hb | hb) | hb) | hb) | hb <;>
    rcases hb with hb | hb | hb | hb <;> (rw [hb]; exact h256 _)

/-- Two signatures are equal exactly when the SHA-1 digests of the two signed
strings are. -/
theorem generateSignature_eq_iff (ps qs : Params) (p q : String) :
    generateSignature ps p = generateSignature qs q ↔
      sha1Sum (strBytes (signatureString ps p)) = sha1Sum (strBytes (signatureString qs q)) := by
  constructor
  · intro h
    exact hexEncode_injective _ _ (sha1Sum_lt _) (sha1Sum_lt _) h
  · intro h
    rw [generateSignature, generateSignature, h]

/-! ## Lemmas on the signed string -/

theorem signatureString_data (ps : Params) (p : String) :
    (signatureString ps p).data
      = p.data ++ ((sortStrings (ps.map Prod.fst)).filterMap
          (fun k => token (lookup ps k))).flatMap (fun t => '|' :: t.data) := by
  rw [signatureString_eq, specSignedString, intercalate_cons_data]
  rfl

/-- Signed strings under different secrets differ. -/
theorem signatureString_secret_ne (ps : Params) {p q : String} (h : p ≠ q) :
    signatureString ps p ≠ signatureString ps q := by
  intro heq
  have hd := congrArg String.data heq
  rw [signatureString_data, signatureString_data] at hd
  exact h (String.ext (List.append_cancel_right hd))

theorem tokenText_ne {a b : Option String} (h : a ≠ b) :
    a.toList.flatMap (fun t => '|' :: t.data) ≠ b.toList.flatMap (fun t => '|' :: t.data) := by
  cases a with
  | none =>
    cases b with
    | none => exact absurd rfl h
    | some t => simp [List.flatMap_cons]
  | some s =>
    cases b with
    | none => simp [List.flatMap_cons]
    | some t =>
      simp only [Option.toList, List.flatMap_cons, List.flatMap_nil, List.append_nil, ne_eq,
        List.cons.injEq, true_and]
      intro hd
      exact h (congrArg some (String.ext hd))

/-- Changing the token of exactly one key of a list without repetitions changes
the joined text of the tokens. -/
theorem tokens_single_change (ks : List String) (hnodup : ks.Nodup) (f g : String → Option String)
    (k : String) (hk : k ∈ ks) (hsame : ∀ j ∈ ks, j ≠ k → f j = g j) (hdiff : f k ≠ g k) :
    (ks.filterMap f).flatMap (fun t => '|' :: t.data)
      ≠ (ks.filterMap g).flatMap (fun t => '|' :: t.data) := by
  obtain ⟨l1, l2, rfl⟩ := List.append_of_mem hk
  have hnd := List.nodup_append.1 hnodup
  have hk1 : k ∉ l1 := fun hmem => hnd.2.2 hmem (List.mem_cons_self _ _)
  have hk2 : k ∉ l2 := (List.nodup_cons.1 hnd.2.1).1
  have e1 : l1.filterMap f = l1.filterMap g :=
    List.filterMap_congr (fun x hx => hsame x (List.mem_append_left _ hx)
      (fun hxk => hk1 (hxk ▸ hx)))
  have e2 : l2.filterMap f = l2.filterMap g :=
    List.filterMap_congr (fun x hx => hsame x
      (List.mem_append_right _ (List.mem_cons_of_mem _ hx)) (fun hxk => hk2 (hxk ▸ hx)))
  have hcons : ∀ h : String → Option String,
      (k :: l2).filterMap h = (h k).toList ++ l2.filterMap h := by
    intro h
    rw [List.filterMap_cons]
    cases h k <;> rfl
  rw [List.filterMap_append, List.filterMap_append, hcons f, hcons g, e1, e2]
  simp only [List.flatMap_append]
  intro heq
  exact tokenText_ne hdiff (List.append_cancel_right (List.append_cancel_left heq))

/-- Two maps with the same keys, none repeated, that differ in the token of
exactly one key have different signed strings under every password. -/
theorem signatureString_single_change (ps qs : Params) (p k : String)
    (hkeys : ps.map Prod.fst = qs.map Prod.fst) (hnodup : (ps.map Prod.fst).Nodup)
    (hk : k ∈ ps.map Prod.fst)
    (hsame : ∀ j ∈ ps.map Prod.fst, j ≠ k → lookup ps j = lookup qs j)
    (hdiff : token (lookup ps k) ≠ token (lookup qs k)) :
    signatureString ps p ≠ signatureString qs p := by
  intro heq
  have hd := congrArg String.data heq
  rw [signatureString_data, signatureString_data, ← hkeys] at hd
  have hperm : (sortStrings (ps.map Prod.fst)).Perm (ps.map Prod.fst) :=
    List.perm_insertionSort _ _
  exact tokens_single_change _ (hperm.nodup_iff.2 hnodup) _ _ k (hperm.mem_iff.2 hk)
    (fun j hmem hj => by simp only [hsame j (hperm.mem_iff.1 hmem) hj]) hdiff
    (List.append_cancel_left hd)

/-! ## The signed fields of a callback -/

/-- The map signed by `validateSignature`, written out: the 34 fields other than
`Signature` and `ResponseSignatureString`. -/
theorem signedParams_eq (c : Callback) :
    c.signedParams =
      [("OrderId", Value.str c.OrderId),
       ("MerchantId", Value.int c.MerchantId),
       ("Amount", Value.str c.Amount),
       ("Currency", Value.str c.Currency),
       ("OrderStatus", Value.str c.OrderStatus),
       ("ResponseStatus", Value.str c.ResponseStatus),
       ("TranType", Value.str c.TranType),
       ("SenderCellPhone", Value.str c.SenderCellPhone),
       ("SenderAccount", Value.str c.SenderAccount),
       ("CardBin", Value.int c.CardBin),
       ("MaskedCard", Value.str c.MaskedCard),
       ("CardType", Value.str c.CardType),
       ("RRN", Value.str c.RRN),
       ("ApprovalCode", Value.str c.ApprovalCode),
       ("ResponseCode", nested c.ResponseCode),
       ("ResponseDescription", Value.str c.ResponseDescription),
       ("ReversalAmount", Value.str c.ReversalAmount),
       ("SettlementAmount", Value.str c.SettlementAmount),
       ("SettlementCurrency", Value.str c.SettlementCurrency),
       ("OrderTime", Value.str c.OrderTime),
       ("SettlementDate", Value.str c.SettlementDate),
       ("ECI", Value.str c.ECI),
       ("Fee", Value.str c.Fee),
       ("PaymentSystem", Value.str c.PaymentSystem),
       ("SenderEmail", Value.str c.SenderEmail),
       ("PaymentId", Value.int c.PaymentId),
       ("ActualAmount", Value.str c.ActualAmount),
       ("ActualCurrency", Value.str c.ActualCurrency),
       ("MerchantData", Value.str c.MerchantData),
       ("VerificationStatus", Value.str c.VerificationStatus),
       ("Rectoken", Value.str c.Rectoken),
       ("RectokenLifetime", Value.str c.RectokenLifetime),
       ("ProductId", Value.str c.ProductId),
       ("AdditionalInfo", Value.str c.AdditionalInfo)] := by
  simp [Callback.signedParams, Callback.structsMap, delete, List.filter]

theorem signedParams_set (c : Callback) (sig rss : String) :
    ({ c with Signature := sig, ResponseSignatureString := rss } : Callback).signedParams
      = c.signedParams := by
  rw [signedParams_eq, signedParams_eq]

theorem validateSignature_iff (c : Callback) (s : String) :
    c.validateSignature s = true ↔ c.Signature = generateSignature c.signedParams s := by
  simp [Callback.validateSignature]

/-- A callback signed with `signedWith` validates. -/
theorem validateSignature_signedWith (cb : Callback) (s : String) :
    (cb.signedWith s).validateSignature s = true := by
  rw [validateSignature_iff]
  exact congrArg (fun ps => generateSignature ps s)
    (signedParams_set cb (generateSignature cb.signedParams s) cb.ResponseSignatureString).symm

/-! ## C2: signature round trip -/

/-- C2: a callback whose `Signature` is set to `generateSignature` of its fields
other than `Signature` and `ResponseSignatureString` under the secret `s`
validates under `s`, for every value of every other field and whatever
`ResponseSignatureString` is put next to it. -/
theorem validateSignature_roundtrip (c : Callback) (s rss : String) :
    ({ c with Signature := generateSignature c.signedParams s,
              ResponseSignatureString := rss } : Callback).validateSignature s = true := by
  rw [validateSignature_iff]
  exact congrArg (fun ps => generateSignature ps s)
    (signedParams_set c (generateSignature c.signedParams s) rss).symm

/-! ## C4: `ValidateCallback` -/

/-- C4: `ValidateCallback` returns `nil` exactly on a `Callback` whose
`Signature` is the signature of its signed fields under the merchant password,
the error "invalid callback data" exactly on an input that is not a `Callback`,
and the error "invalid signature" exactly on a `Callback` whose signature does
not match. -/
theorem ValidateCallback_spec (cl : FondyClient) (input : Input) :
    (cl.ValidateCallback input = none ↔
      ∃ c, input = Input.callback c ∧
        c.Signature = generateSignature c.signedParams cl.merchantPassword)
    ∧ (cl.ValidateCallback input = some "invalid callback data" ↔
      ∀ c, input ≠ Input.callback c)
    ∧ (cl.ValidateCallback input = some "invalid signature" ↔
      ∃ c, input = Input.callback c ∧
        c.Signature ≠ generateSignature c.signedParams cl.merchantPassword) := by
  cases input with
  | other v => simp [FondyClient.ValidateCallback]
  | callback c =>
    by_cases h : c.Signature = generateSignature c.signedParams cl.merchantPassword
    · have hv : c.validateSignature cl.merchantPassword = true := (validateSignature_iff _ _).2 h
      simp [FondyClient.ValidateCallback, hv, h]
    · have hv : c.validateSignature cl.merchantPassword = false := by
        rw [← Bool.not_eq_true, validateSignature_iff]; exact h
      simp [FondyClient.ValidateCallback, hv, h]

/-! ## C7: the two predicates of a callback -/

/-- C7: `Success` holds exactly when `ResponseStatus` is "success" and
`PaymentApproved` exactly when `OrderStatus` is "approved"; each depends on its
own field only, and all four combinations of the two occur. -/
theorem Success_PaymentApproved_spec :
    (∀ c : Callback, c.Success = true ↔ c.ResponseStatus = "success")
    ∧ (∀ c : Callback, c.PaymentApproved = true ↔ c.OrderStatus = "approved")
    ∧ (∀ c d : Callback, c.ResponseStatus = d.ResponseStatus → c.Success = d.Success)
    ∧ (∀ c d : Callback, c.OrderStatus = d.OrderStatus →
        c.PaymentApproved = d.PaymentApproved)
    ∧ (∀ s a : Bool, ∃ c : Callback, c.Success = s ∧ c.PaymentApproved = a) := by
  refine ⟨fun c => by simp [Callback.Success], fun c => by simp [Callback.PaymentApproved],
    fun c d h => by simp [Callback.Success, h],
    fun c d h => by simp [Callback.PaymentApproved, h], ?_⟩
  intro s a
  refine ⟨{ Callback.zero with
      ResponseStatus := if s then "success" else "failure"
      OrderStatus := if a then "approved" else "declined" }, ?_, ?_⟩
  · cases s <;> simp [Callback.Success]
  · cases a <;> simp [Callback.PaymentApproved]

/-! ## Lemmas on lookups and tokens -/

theorem lookup_delete (ps : Params) (x j : String) :
    lookup (delete ps x) j = if j = x then Value.nil else lookup ps j := by
  induction ps with
  | nil => simp [delete, lookup]
  | cons kv rest ih =>
    obtain ⟨k, v⟩ := kv
    unfold delete at ih ⊢
    by_cases hkx : k = x
    · subst hkx
      by_cases hjk : j = k
      · subst hjk; simpa [List.filter, lookup] using ih
      · have hkj : ¬ k = j := fun h => hjk h.symm
        simpa [List.filter, lookup, hkj, hjk] using ih
    · by_cases hjx : j = x
      · subst hjx
        simpa [List.filter, lookup, hkx] using ih
      · by_cases hkj : k = j
        · subst hkj; simp [List.filter, lookup, hkx]
        · simpa [List.filter, lookup, hkx, hkj, hjx] using ih

theorem lookup_signedParams (c : Callback) (j : String) :
    lookup c.signedParams j
      = if j = "ResponseSignatureString" then Value.nil
        else if j = "Signature" then Value.nil else lookup c.structsMap j := by
  simp only [Callback.signedParams, lookup_delete]

theorem signedKeys_eq (c : Callback) :
    c.signedParams.map Prod.fst =
      ["OrderId", "MerchantId", "Amount", "Currency", "OrderStatus", "ResponseStatus",
       "TranType", "SenderCellPhone", "SenderAccount", "CardBin", "MaskedCard", "CardType",
       "RRN", "ApprovalCode", "ResponseCode", "ResponseDescription", "ReversalAmount",
       "SettlementAmount", "SettlementCurrency", "OrderTime", "SettlementDate", "ECI", "Fee",
       "PaymentSystem", "SenderEmail", "PaymentId", "ActualAmount", "ActualCurrency",
       "MerchantData", "VerificationStatus", "Rectoken", "RectokenLifetime", "ProductId",
       "AdditionalInfo"] := by
  rw [signedParams_eq]; rfl

theorem signedKeys_nodup (c : Callback) : (c.signedParams.map Prod.fst).Nodup := by
  rw [signedKeys_eq]; decide

theorem token_str_ne {a b : String} (h : a ≠ b) : token (Value.str a) ≠ token (Value.str b) := by
  by_cases ha : a = ""
  · subst ha
    by_cases hb : b = ""
    · exact absurd hb.symm h
    · simp [token, hb]
  · by_cases hb : b = ""
    · subst hb; simp [token, ha]
    · simpa [token, ha, hb] using h

theorem token_int_ne {a b : Int} (h : a ≠ b) : token (Value.int a) ≠ token (Value.int b) := by
  simp only [token, fmtV, ne_eq, Option.some.injEq]
  exact fun e => h (intRepr_injective e)

/-- A field of static type `string` or `int` that changes its value changes its
token. -/
theorem token_ne_of_typed (c t : Callback) (k : String)
    (hk : k ∈ c.signedParams.map Prod.fst) (hcode : k ≠ "ResponseCode")
    (hchanged : lookup t.structsMap k ≠ lookup c.structsMap k) :
    token (lookup t.structsMap k) ≠ token (lookup c.structsMap k) := by
  rw [signedKeys_eq] at hk
  simp only [List.mem_cons, List.mem_singleton, List.not_mem_nil, or_false] at hk
  rcases hk with rfl | rfl | rfl | rfl | rfl | rfl | rfl | rfl | rfl | rfl | rfl | rfl | rfl | rfl
    | rfl | rfl | rfl | rfl | rfl | rfl | rfl | rfl | rfl | rfl | rfl | rfl | rfl | rfl | rfl | rfl
    | rfl | rfl | rfl | rfl <;>
  first
  | exact absurd rfl hcode
  | (simp only [Callback.structsMap, lookup, String.reduceEq, if_true, if_false, ne_eq,
      Value.str.injEq, Value.int.injEq] at hchanged ⊢
     first
     | exact token_str_ne hchanged
     | exact token_int_ne hchanged)

/-! ## The signed string of a callback -/

theorem callback_sortedKeys (c : Callback) :
    sortStrings (c.signedParams.map Prod.fst)
      = ["ActualAmount", "ActualCurrency", "AdditionalInfo", "Amount", "ApprovalCode",
         "CardBin", "CardType", "Currency", "ECI", "Fee", "MaskedCard", "MerchantData",
         "MerchantId", "OrderId", "OrderStatus", "OrderTime", "PaymentId", "PaymentSystem",
         "ProductId", "RRN", "Rectoken", "RectokenLifetime", "ResponseCode",
         "ResponseDescription", "ResponseStatus", "ReversalAmount", "SenderAccount",
         "SenderCellPhone", "SenderEmail", "SettlementAmount", "SettlementCurrency",
         "SettlementDate", "TranType", "VerificationStatus"] := by
  rw [signedKeys_eq]
  decide!

/-- The values that `validateSignature` signs, in the order in which it signs
them: ascending Go field names. -/
theorem callback_signatureString (c : Callback) (p : String) :
    signatureString c.signedParams p
      = "|".intercalate (p :: [Value.str c.ActualAmount, Value.str c.ActualCurrency,
          Value.str c.AdditionalInfo, Value.str c.Amount, Value.str c.ApprovalCode,
          Value.int c.CardBin, Value.str c.CardType, Value.str c.Currency, Value.str c.ECI,
          Value.str c.Fee, Value.str c.MaskedCard, Value.str c.MerchantData,
          Value.int c.MerchantId, Value.str c.OrderId, Value.str c.OrderStatus,
          Value.str c.OrderTime, Value.int c.PaymentId, Value.str c.PaymentSystem,
          Value.str c.ProductId, Value.str c.RRN, Value.str c.Rectoken,
          Value.str c.RectokenLifetime, nested c.ResponseCode,
          Value.str c.ResponseDescription,
          Value.str c.ResponseStatus, Value.str c.ReversalAmount, Value.str c.SenderAccount,
          Value.str c.SenderCellPhone, Value.str c.SenderEmail, Value.str c.SettlementAmount,
          Value.str c.SettlementCurrency, Value.str c.SettlementDate, Value.str c.TranType,
          Value.str c.VerificationStatus].filterMap token) := by
  rw [signatureString_eq, specSignedString, callback_sortedKeys, signedParams_eq]
  rfl

/-! ## C3: tamper detection -/

theorem signedKeys_const (c t : Callback) :
    t.signedParams.map Prod.fst = c.signedParams.map Prod.fst := by
  rw [signedKeys_eq, signedKeys_eq]

theorem lookup_signedParams_of_mem (c : Callback) (k : String)
    (hk : k ∈ c.signedParams.map Prod.fst) :
    k ≠ "Signature" ∧ k ≠ "ResponseSignatureString"
      ∧ ∀ t : Callback, lookup t.signedParams k = lookup t.structsMap k := by
  have h1 : k ≠ "Signature" := by
    rintro rfl
    rw [signedKeys_eq] at hk
    revert hk; decide
  have h2 : k ≠ "ResponseSignatureString" := by
    rintro rfl
    rw [signedKeys_eq] at hk
    revert hk; decide
  exact ⟨h1, h2, fun t => by rw [lookup_signedParams, if_neg h2, if_neg h1]⟩

theorem structsKeys_eq (c : Callback) :
    c.structsMap.map Prod.fst =
      ["OrderId", "MerchantId", "Amount", "Currency", "OrderStatus", "ResponseStatus",
       "Signature", "TranType", "SenderCellPhone", "SenderAccount", "CardBin", "MaskedCard",
       "CardType", "RRN", "ApprovalCode", "ResponseCode", "ResponseDescription",
       "ReversalAmount", "SettlementAmount", "SettlementCurrency", "OrderTime",
       "SettlementDate", "ECI", "Fee", "PaymentSystem", "SenderEmail", "PaymentId",
       "ActualAmount", "ActualCurrency", "MerchantData", "VerificationStatus", "Rectoken",
       "RectokenLifetime", "ProductId", "AdditionalInfo", "ResponseSignatureString"] := rfl

theorem signedKeys_subset (c : Callback) {j : String} (hj : j ∈ c.signedParams.map Prod.fst) :
    j ∈ c.structsMap.map Prod.fst := by
  unfold Callback.signedParams delete at hj
  obtain ⟨kv, hkv, rfl⟩ := List.mem_map.1 hj
  exact List.mem_map.2 ⟨kv, (List.mem_filter.1 (List.mem_filter.1 hkv).1).1, rfl⟩

/-- A callback that differs from `c` in the token of exactly one signed field
has another signed string, under every secret. -/
theorem signatureString_tampered (c t : Callback) (s k : String)
    (hk : k ∈ c.signedParams.map Prod.fst)
    (hkept : ∀ j ∈ c.structsMap.map Prod.fst, j ≠ k →
      lookup t.structsMap j = lookup c.structsMap j)
    (htoken : token (lookup t.structsMap k) ≠ token (lookup c.structsMap k)) :
    signatureString t.signedParams s ≠ signatureString c.signedParams s := by
  obtain ⟨_, _, hlook⟩ := lookup_signedParams_of_mem c k hk
  refine signatureString_single_change t.signedParams c.signedParams s k
    (signedKeys_const c t) (signedKeys_nodup t) (by rw [signedKeys_const c t]; exact hk) ?_ ?_
  · intro j hmem hj
    rw [signedKeys_const c t] at hmem
    rw [(lookup_signedParams_of_mem c j hmem).2.2 t, (lookup_signedParams_of_mem c j hmem).2.2 c]
    exact hkept j (signedKeys_subset c hmem) hj
  · rw [hlook t, hlook c]; exact htoken

theorem validateSignature_false_of_ne (c : Callback) (s : String) (ps : Params) (q : String)
    (hsig : c.Signature = generateSignature ps q)
    (hne : signatureString c.signedParams s ≠ signatureString ps q)
    (hsha : NoCollision (signatureString c.signedParams s) (signatureString ps q)) :
    c.validateSignature s = false := by
  rw [← Bool.not_eq_true, validateSignature_iff, hsig]
  intro h
  exact hne (hsha ((generateSignature_eq_iff _ _ _ _).1 h.symm))

theorem ValidateCallback_of_false (cl : FondyClient) (c : Callback)
    (h : c.validateSignature cl.merchantPassword = false) :
    cl.ValidateCallback (Input.callback c) = some "invalid signature" := by
  simp [FondyClient.ValidateCallback, h]

/-- C3 (amended): let `c` validate under the secret `s` and let `t` differ from
`c` in the value of exactly one signed field `k`, non-empty in `c`, the signature
being kept; for the field `ResponseCode`, of type `interface{}`, let moreover the
text that is signed for the new value, the `%v` text of what `structs.Map`
stores for it (for a struct the map of its fields), differ from the text that is
signed for the old one. Then the signed string of
`t` differs from that of `c`, and if SHA-1 does not collide on the two strings,
`t.validateSignature(s)` is false and `ValidateCallback` returns the error
"invalid signature". Likewise the signed string of `c` under any other secret
differs, and without a collision `c` does not validate under that secret. -/
theorem tamper_detection (c t : Callback) (s k : String)
    (hvalid : c.validateSignature s = true)
    (hk : k ∈ c.signedParams.map Prod.fst)
    (_hnonempty : token (lookup c.structsMap k) ≠ none)
    (hchanged : lookup t.structsMap k ≠ lookup c.structsMap k)
    (hkept : ∀ j ∈ c.structsMap.map Prod.fst, j ≠ k →
      lookup t.structsMap j = lookup c.structsMap j)
    (hcode : k = "ResponseCode" →
      token (lookup t.structsMap k) ≠ token (lookup c.structsMap k)) :
    signatureString t.signedParams s ≠ signatureString c.signedParams s
    ∧ (NoCollision (signatureString t.signedParams s) (signatureString c.signedParams s) →
        t.validateSignature s = false
        ∧ ∀ merchantId, FondyClient.ValidateCallback ⟨merchantId, s⟩ (Input.callback t)
            = some "invalid signature")
    ∧ ∀ s', s' ≠ s →
        signatureString c.signedParams s' ≠ signatureString c.signedParams s
        ∧ (NoCollision (signatureString c.signedParams s') (signatureString c.signedParams s) →
            c.validateSignature s' = false) := by
  have htoken : token (lookup t.structsMap k) ≠ token (lookup c.structsMap k) := by
    by_cases hrc : k = "ResponseCode"
    · exact hcode hrc
    · exact token_ne_of_typed c t k hk hrc hchanged
  have hne := signatureString_tampered c t s k hk hkept htoken
  have hsigc : c.Signature = generateSignature c.signedParams s := (validateSignature_iff c s).1 hvalid
  have hsigt : t.Signature = generateSignature c.signedParams s := by
    have hS := hkept "Signature" (by rw [structsKeys_eq]; decide) (fun h => (lookup_signedParams_of_mem c k hk).1 h.symm)
    simp only [Callback.structsMap, lookup, String.reduceEq, if_true, if_false,
      Value.str.injEq] at hS
    rw [hS, hsigc]
  refine ⟨hne, fun hsha => ?_, fun s' hs' => ⟨signatureString_secret_ne _ hs', fun hsha => ?_⟩⟩
  · have hfalse := validateSignature_false_of_ne t s c.signedParams s hsigt hne hsha
    exact ⟨hfalse, fun m => ValidateCallback_of_false ⟨m, s⟩ t hfalse⟩
  · exact validateSignature_false_of_ne c s' c.signedParams s hsigc
      (signatureString_secret_ne _ hs') hsha

/-! ## The sample callbacks -/

theorem callback_signature_eval (c : Callback) (p : String) :
    generateSignature c.signedParams p
      = hexEncode (sha1Sum (strBytes ("|".intercalate (p :: [Value.str c.ActualAmount,
          Value.str c.ActualCurrency,
          Value.str c.AdditionalInfo, Value.str c.Amount, Value.str c.ApprovalCode,
          Value.int c.CardBin, Value.str c.CardType, Value.str c.Currency, Value.str c.ECI,
          Value.str c.Fee, Value.str c.MaskedCard, Value.str c.MerchantData,
          Value.int c.MerchantId, Value.str c.OrderId, Value.str c.OrderStatus,
          Value.str c.OrderTime, Value.int c.PaymentId, Value.str c.PaymentSystem,
          Value.str c.ProductId, Value.str c.RRN, Value.str c.Rectoken,
          Value.str c.RectokenLifetime, nested c.ResponseCode,
          Value.str c.ResponseDescription,
          Value.str c.ResponseStatus, Value.str c.ReversalAmount, Value.str c.SenderAccount,
          Value.str c.SenderCellPhone, Value.str c.SenderEmail, Value.str c.SettlementAmount,
          Value.str c.SettlementCurrency, Value.str c.SettlementDate, Value.str c.TranType,
          Value.str c.VerificationStatus].filterMap token)))) := by
  rw [generateSignature, callback_signatureString]

theorem ValidateCallback_of_true (cl : FondyClient) (c : Callback)
    (h : c.validateSignature cl.merchantPassword = true) :
    cl.ValidateCallback (Input.callback c) = none := by
  simp [FondyClient.ValidateCallback, h]

set_option maxRecDepth 100000 in
theorem sampleSigned_valid : sampleSigned.validateSignature "secret" = true :=
  (validateSignature_iff _ _).2 (by rw [callback_signature_eval]; decide!)

set_option maxRecDepth 100000 in
theorem tamperedResponseCode_valid : tamperedResponseCode.validateSignature "secret" = true :=
  (validateSignature_iff _ _).2 (by rw [callback_signature_eval]; decide!)

set_option maxRecDepth 100000 in
/-- Counterexample to C3 as stated: the signed sample callback carries the
non-empty string "1011" in `ResponseCode`; replacing it by the integer 1011, a
different value, and keeping the signature leaves the signed string unchanged,
and the tampered callback still validates. -/
theorem tamper_ResponseCode_undetected :
    sampleSigned.validateSignature "secret" = true
    ∧ token (lookup sampleSigned.structsMap "ResponseCode") ≠ none
    ∧ lookup tamperedResponseCode.structsMap "ResponseCode"
        ≠ lookup sampleSigned.structsMap "ResponseCode"
    ∧ (∀ j ∈ sampleSigned.structsMap.map Prod.fst, j ≠ "ResponseCode" →
        lookup tamperedResponseCode.structsMap j = lookup sampleSigned.structsMap j)
    ∧ signatureString tamperedResponseCode.signedParams "secret"
        = signatureString sampleSigned.signedParams "secret"
    ∧ tamperedResponseCode.validateSignature "secret" = true
    ∧ FondyClient.ValidateCallback ⟨"1396424", "secret"⟩ (Input.callback tamperedResponseCode)
        = none :=
  ⟨sampleSigned_valid, by decide!, by decide!, by decide!,
    by rw [callback_signatureString, callback_signatureString]; decide!,
    tamperedResponseCode_valid,
    ValidateCallback_of_true ⟨"1396424", "secret"⟩ _ tamperedResponseCode_valid⟩

/-- A struct in `ResponseCode` is signed as the map of its fields: the callback
that holds the struct and the one that holds that map have the same signed
string, so replacing one by the other is not detected either. -/
theorem signatureString_struct_as_map (c : Callback) (mapText text p : String) :
    signatureString ({ c with ResponseCode := Value.struct mapText text } : Callback).signedParams p
      = signatureString ({ c with ResponseCode := Value.other mapText } : Callback).signedParams p := by
  rw [callback_signatureString, callback_signatureString]
  rfl

set_option maxRecDepth 100000 in
theorem tamperedAmount_digest :
    sha1Sum (strBytes (signatureString tamperedAmount.signedParams "secret"))
      ≠ sha1Sum (strBytes (signatureString sampleSigned.signedParams "secret")) := by
  rw [callback_signatureString, callback_signatureString]; decide!

set_option maxRecDepth 100000 in
theorem otherSecret_digest :
    sha1Sum (strBytes (signatureString sampleSigned.signedParams "Secret"))
      ≠ sha1Sum (strBytes (signatureString sampleSigned.signedParams "secret")) := by
  rw [callback_signatureString, callback_signatureString]; decide!

set_option maxRecDepth 100000 in
/-- Witness of C3: in the signed sample callback the amount "100" is replaced by
"1"; the tampered callback is rejected, and so is the sample under another
secret. -/
theorem tamper_detection_witness :
    sampleSigned.validateSignature "secret" = true
    ∧ signatureString tamperedAmount.signedParams "secret"
        ≠ signatureString sampleSigned.signedParams "secret"
    ∧ tamperedAmount.validateSignature "secret" = false
    ∧ FondyClient.ValidateCallback ⟨"1396424", "secret"⟩ (Input.callback tamperedAmount)
        = some "invalid signature"
    ∧ sampleSigned.validateSignature "Secret" = false :=
  have h := tamper_detection sampleSigned tamperedAmount "secret" "Amount"
    sampleSigned_valid (by decide!) (by decide!) (by decide!) (by decide!)
    (fun hk => absurd hk (by decide))
  ⟨sampleSigned_valid, h.1, (h.2.1 (fun hsha => absurd hsha tamperedAmount_digest)).1,
    (h.2.1 (fun hsha => absurd hsha tamperedAmount_digest)).2 "1396424",
    ((h.2.2 "Secret" (by decide)).2 (fun hsha => absurd hsha otherSecret_digest))⟩

/-! ## The signed string of a checkout request -/

theorem filterMap_token_str (l : List String) :
    (l.map Value.str).filterMap token = l.filter (fun s => s ≠ "") := by
  induction l with
  | nil => rfl
  | cons s rest ih =>
    by_cases hs : s = ""
    · simp [token, hs, ih]
    · simp [token, hs, ih]

theorem checkout_sortedKeys (r : checkoutRequest) :
    sortStrings (r.structsMap.map Prod.fst)
      = ["Amount", "Currency", "Language", "MerchantId", "OrderDesc", "OrderId", "ProductId",
         "ResponseURL", "SenderEmail", "ServerCallbackURL", "Signature"] := by
  show sortStrings ["OrderId", "MerchantId", "OrderDesc", "Signature", "Amount", "Currency",
    "ResponseURL", "ServerCallbackURL", "SenderEmail", "Language", "ProductId"] = _
  decide!

/-- The string that `setSignature` hashes: the password, then the non-empty
fields in the order of their Go names, the old `Signature` among them. -/
theorem checkout_signatureString (r : checkoutRequest) (p : String) :
    signatureString r.structsMap p
      = "|".intercalate (p :: [r.Amount, r.Currency, r.Language, r.MerchantId, r.OrderDesc,
          r.OrderId, r.ProductId, r.ResponseURL, r.SenderEmail, r.ServerCallbackURL,
          r.Signature].filter (fun s => s ≠ "")) := by
  rw [signatureString_eq, specSignedString, checkout_sortedKeys, ← filterMap_token_str]
  rfl

theorem checkout_sortedKeys_delete (r : checkoutRequest) :
    sortStrings ((delete r.structsMap "Signature").map Prod.fst)
      = ["Amount", "Currency", "Language", "MerchantId", "OrderDesc", "OrderId", "ProductId",
         "ResponseURL", "SenderEmail", "ServerCallbackURL"] := by
  show sortStrings ["OrderId", "MerchantId", "OrderDesc", "Amount", "Currency",
    "ResponseURL", "ServerCallbackURL", "SenderEmail", "Language", "ProductId"] = _
  decide!

/-- The signed string of a checkout request without its `Signature` field. -/
theorem checkout_signatureString_delete (r : checkoutRequest) (p : String) :
    signatureString (delete r.structsMap "Signature") p
      = "|".intercalate (p :: [r.Amount, r.Currency, r.Language, r.MerchantId, r.OrderDesc,
          r.OrderId, r.ProductId, r.ResponseURL, r.SenderEmail,
          r.ServerCallbackURL].filter (fun s => s ≠ "")) := by
  rw [signatureString_eq, specSignedString, checkout_sortedKeys_delete, ← filterMap_token_str]
  rfl

/-- On a request whose `Signature` is empty, `setSignature` stores the signature
of the fields other than `Signature`. -/
theorem setSignature_of_empty (r : checkoutRequest) (p : String) (h : r.Signature = "") :
    (r.setSignature p).Signature = generateSignature (delete r.structsMap "Signature") p := by
  show generateSignature r.structsMap p = _
  rw [generateSignature, generateSignature, checkout_signatureString,
    checkout_signatureString_delete, h]
  simp [List.filter_cons]

/-! ## C5: `setSignature` -/

/-- C5 (amended): on a checkout request `r` whose `Signature` is empty, which is
how `GeneratePaymentLink` builds the request it signs, `setSignature` stores in
`Signature` the result of `generateSignature` on the fields of `r` without
`Signature`, that is the hexadecimal SHA-1 of the password and the non-empty
other fields joined by vertical bars, and leaves every other field as it is. On
any request it stores `generateSignature` of all fields, `Signature` included. -/
theorem setSignature_spec (r : checkoutRequest) (p : String) (h : r.Signature = "") :
    (r.setSignature p).Signature = generateSignature (delete r.structsMap "Signature") p
    ∧ (r.setSignature p).Signature
        = hexEncode (sha1Sum (strBytes ("|".intercalate (p :: [r.Amount, r.Currency, r.Language,
            r.MerchantId, r.OrderDesc, r.OrderId, r.ProductId, r.ResponseURL, r.SenderEmail,
            r.ServerCallbackURL].filter (fun s => s ≠ "")))))
    ∧ r.setSignature p
        = { r with Signature := generateSignature (delete r.structsMap "Signature") p }
    ∧ ∀ q : checkoutRequest, (q.setSignature p).Signature = generateSignature q.structsMap p := by
  have hsig := setSignature_of_empty r p h
  refine ⟨hsig, ?_, ?_, fun q => rfl⟩
  · rw [hsig, generateSignature, checkout_signatureString_delete]
  · rw [← hsig]
    rfl

set_option maxRecDepth 100000 in
/-- Witness of C5 on the unsigned request for order "1": the stored signature is
the SHA-1 of "secret|1". -/
theorem setSignature_spec_witness :
    freshRequest.Signature = ""
    ∧ (freshRequest.setSignature "secret").Signature
        = generateSignature (delete freshRequest.structsMap "Signature") "secret"
    ∧ (freshRequest.setSignature "secret").Signature
        = "aee1bd96373fbb7af06a4aad69c3c7ea694a504d" :=
  ⟨rfl, (setSignature_spec freshRequest "secret" rfl).1,
    (setSignature_spec freshRequest "secret" rfl).2.1.trans (by decide!)⟩

set_option maxRecDepth 100000 in
/-- Counterexample to C5 as stated: on the request for order "1" whose
`Signature` already holds "stale", `setSignature` hashes "secret|1|stale" and
not "secret|1", so the result is not the signature of the fields without
`Signature` and depends on the previous value; and a second call of
`setSignature`, also on a request that started unsigned, changes the signature
once more. -/
theorem setSignature_signs_old_signature :
    (staleRequest.setSignature "secret").Signature
      = hexEncode (sha1Sum (strBytes "secret|1|stale"))
    ∧ generateSignature (delete staleRequest.structsMap "Signature") "secret"
      = hexEncode (sha1Sum (strBytes "secret|1"))
    ∧ (staleRequest.setSignature "secret").Signature
      ≠ generateSignature (delete staleRequest.structsMap "Signature") "secret"
    ∧ ((freshRequest.setSignature "secret").setSignature "secret").Signature
      ≠ (freshRequest.setSignature "secret").Signature := by
  refine ⟨by decide!, by decide!, by decide!, by decide!⟩

/-! ## C6: `GeneratePaymentLink` -/

/-- C6: when the exchange with the provider yields the decoded response `resp`,
`GeneratePaymentLink` returns `resp.CheckoutURL` and no error if
`resp.Status` is "success", and the empty string with the error
`resp.ErrorMessage` otherwise. The request it submits (the only one `post` is
asked about) carries the order data of the input, the merchant id of the client,
the amount in decimal, the language "ru" and, as signature, `generateSignature`
of its other fields under the merchant password: the hexadecimal SHA-1 of the
password and the non-empty fields joined by vertical bars. -/
theorem GeneratePaymentLink_spec (cl : FondyClient) (input : GeneratePaymentLinkInput)
    (post : checkoutRequest → Exchange) (resp : interimResponse)
    (hresp : post (cl.checkoutReq input) = Exchange.decoded resp) :
    (resp.Status = "success" → cl.GeneratePaymentLink input post = (resp.CheckoutURL, none))
    ∧ (resp.Status ≠ "success" →
        cl.GeneratePaymentLink input post = ("", some resp.ErrorMessage))
    ∧ (∀ post' : checkoutRequest → Exchange,
        post' (cl.checkoutReq input) = post (cl.checkoutReq input) →
          cl.GeneratePaymentLink input post' = cl.GeneratePaymentLink input post)
    ∧ (cl.checkoutReq input).MerchantId = cl.merchantId
    ∧ (cl.checkoutReq input).OrderId = input.OrderId
    ∧ (cl.checkoutReq input).OrderDesc = input.OrderDesc
    ∧ (cl.checkoutReq input).Currency = input.Currency
    ∧ (cl.checkoutReq input).ServerCallbackURL = input.CallbackURL
    ∧ (cl.checkoutReq input).ResponseURL = input.ResponseURL
    ∧ (cl.checkoutReq input).Amount = toString input.Amount
    ∧ (∀ ch ∈ (cl.checkoutReq input).Amount.data, ch.isDigit = true)
    ∧ decimalValue (cl.checkoutReq input).Amount = input.Amount
    ∧ (cl.checkoutReq input).Language = "ru"
    ∧ (cl.checkoutReq input).Signature
        = generateSignature (delete (cl.checkoutReq input).structsMap "Signature")
            cl.merchantPassword
    ∧ (cl.checkoutReq input).Signature
        = hexEncode (sha1Sum (strBytes ("|".intercalate (cl.merchantPassword ::
            [toString input.Amount, input.Currency, "ru", cl.merchantId, input.OrderDesc,
              input.OrderId, input.ResponseURL, input.CallbackURL].filter
                (fun s => s ≠ ""))))) := by
  have hsig : (cl.checkoutReq input).Signature
      = generateSignature (delete (cl.checkoutReq input).structsMap "Signature")
          cl.merchantPassword :=
    setSignature_of_empty _ cl.merchantPassword rfl
  refine ⟨?_, ?_, ?_, rfl, rfl, rfl, rfl, rfl, rfl, rfl, (natRepr_spec input.Amount).2.1,
    (natRepr_spec input.Amount).2.2, rfl, hsig, ?_⟩
  · intro h
    simp [FondyClient.GeneratePaymentLink, hresp, h, statusSuccess]
  · intro h
    simp [FondyClient.GeneratePaymentLink, hresp, h, statusSuccess]
  · intro post' h
    simp only [FondyClient.GeneratePaymentLink, h]
  · rw [hsig, generateSignature, checkout_signatureString_delete]
    simp [FondyClient.checkoutReq, checkoutRequest.setSignature, languageRU, List.filter_cons]

set_option maxRecDepth 100000 in
/-- Witness of C6: the sample client and input against a provider that accepts
and against one that refuses. -/
theorem GeneratePaymentLink_spec_witness :
    sampleClient.GeneratePaymentLink sampleLinkInput
        (fun _ => Exchange.decoded ⟨"success", "https://pay.fondy.eu/checkout/1", "7", ""⟩)
      = ("https://pay.fondy.eu/checkout/1", none)
    ∧ sampleClient.GeneratePaymentLink sampleLinkInput
        (fun _ => Exchange.decoded ⟨"failure", "", "", "Merchant not found"⟩)
      = ("", some "Merchant not found")
    ∧ (sampleClient.checkoutReq sampleLinkInput).Amount = "1500"
    ∧ (sampleClient.checkoutReq sampleLinkInput).Signature
      = hexEncode (sha1Sum (strBytes "secret|1500|USD|ru|1396424|course|1")) :=
  ⟨(GeneratePaymentLink_spec sampleClient sampleLinkInput
      (fun _ => Exchange.decoded ⟨"success", "https://pay.fondy.eu/checkout/1", "7", ""⟩)
      ⟨"success", "https://pay.fondy.eu/checkout/1", "7", ""⟩ rfl).1 rfl,
    (GeneratePaymentLink_spec sampleClient sampleLinkInput
      (fun _ => Exchange.decoded ⟨"failure", "", "", "Merchant not found"⟩)
      ⟨"failure", "", "", "Merchant not found"⟩ rfl).2.1 (by decide),
    by decide!, by decide!⟩

/-! ## C8: settlement of a callback for an order in state `created` -/

theorem mem_addToSet (set ids : List String) (m : String) :
    m ∈ addToSet set ids ↔ m ∈ set ∨ m ∈ ids := by
  unfold addToSet
  induction ids generalizing set with
  | nil => simp
  | cons id rest ih =>
    rw [List.foldl_cons, ih]
    by_cases h : id ∈ set
    · simp only [h, if_true, List.mem_cons]
      constructor
      · rintro (hm | hm)
        · exact Or.inl hm
        · exact Or.inr (Or.inr hm)
      · rintro (hm | hm | hm)
        · exact Or.inl hm
        · exact Or.inl (hm ▸ h)
        · exact Or.inr hm
    · simp only [h, if_false, List.mem_append, List.mem_singleton, List.mem_cons]
      tauto

theorem getById_appendTransactionAndSetStatus (orders : List Order) (id : String)
    (status : Option String) (txn : Transaction) :
    getById (appendTransactionAndSetStatus orders id status txn) id
      = (getById orders id).map (fun o =>
          { o with Status := status.getD o.Status, Transactions := o.Transactions ++ [txn] }) := by
  unfold getById
  induction orders with
  | nil => rfl
  | cons o rest ih =>
    by_cases h : (o.ID == id) = true
    · simp [appendTransactionAndSetStatus, h, List.find?_cons]
    · simp only [Bool.not_eq_true] at h
      simp [appendTransactionAndSetStatus, h, List.find?_cons, ih]

theorem find_GiveAccessToCoursesAndModules (students : List Student)
    (studentId : String) (courseIds moduleIds : List String) :
    (GiveAccessToCoursesAndModules students studentId courseIds moduleIds).find?
        (fun s => s.ID == studentId)
      = (students.find? (fun s => s.ID == studentId)).map (fun s =>
          { s with AvailableModules := addToSet s.AvailableModules moduleIds
                   AvailableCourses := addToSet s.AvailableCourses courseIds }) := by
  induction students with
  | nil => rfl
  | cons s rest ih =>
    by_cases h : s.ID = studentId
    · simp [GiveAccessToCoursesAndModules, h, List.find?_cons]
    · have hb : (s.ID == studentId) = false := by simpa using h
      simp [GiveAccessToCoursesAndModules, h, hb, List.find?_cons, ih]

theorem callbackEndpoint_of_valid (cl : FondyClient) (st : Store) (now : Nat) (cb : Callback)
    (hsig : cb.validateSignature cl.merchantPassword = true) :
    callbackEndpoint cl st now cb = (200, settle st now cb) := by
  simp [callbackEndpoint, FondyClient.ValidateCallback, hsig]

/-- C8 (amended): for an order in state `created` and a validly signed callback
that names it, the callback endpoint answers 200; afterwards the order is `paid`
if the order status of the callback is "approved", otherwise `failed` or, when
that status is not one the provider reports, `other`; and for every module of
the order's offer that the student did not have before, the lessons are served
with 200 if the order status is "approved" and refused with 403 otherwise. -/
theorem callback_settles_created_order (cl : FondyClient) (st : Store) (now : Nat)
    (cb : Callback) (order : Order)
    (hsig : cb.validateSignature cl.merchantPassword = true)
    (horder : getById st.orders cb.OrderId = some order)
    (hcreated : order.Status = OrderStatusCreated) :
    (callbackEndpoint cl st now cb).1 = 200
    ∧ (getById (callbackEndpoint cl st now cb).2.orders cb.OrderId).map Order.Status
        = some (if cb.OrderStatus = "approved" then "paid"
            else if cb.OrderStatus ∈ recognizedOrderStatuses then "failed" else "other")
    ∧ ∀ student offer,
        st.students.find? (fun s => s.ID == order.Student.ID) = some student →
        st.offers.find? (fun f => f.ID == order.Offer.ID) = some offer →
        ∀ m ∈ offer.Modules, m ∉ student.AvailableModules →
          lessonsEndpoint (callbackEndpoint cl st now cb).2 order.Student.ID m
            = if cb.OrderStatus = "approved" then 200 else 403 := by
  rw [callbackEndpoint_of_valid cl st now cb hsig]
  refine ⟨rfl, ?_, ?_⟩
  · by_cases happ : cb.OrderStatus = "approved"
    · have hpa : cb.PaymentApproved = true := by simp [Callback.PaymentApproved, happ]
      simp [settle, horder, hcreated, hpa, happ, getById_appendTransactionAndSetStatus,
        OrderStatusPaid]
    · have hpa : cb.PaymentApproved = false := by simp [Callback.PaymentApproved, happ]
      simp only [settle, horder, hcreated, hpa, happ, getById_appendTransactionAndSetStatus,
        settledStatus, ne_eq, not_true_eq_false, if_false, Bool.false_eq_true,
        Option.map_some', Option.getD_some, OrderStatusFailed, OrderStatusOther]
  · intro student offer hstudent hoffer m hm hnot
    by_cases happ : cb.OrderStatus = "approved"
    · have hpa : cb.PaymentApproved = true := by simp [Callback.PaymentApproved, happ]
      simp [settle, horder, hcreated, hpa, happ, lessonsEndpoint,
        find_GiveAccessToCoursesAndModules, hstudent, hoffer, mem_addToSet, hm]
    · have hpa : cb.PaymentApproved = false := by simp [Callback.PaymentApproved, happ]
      simp [settle, horder, hcreated, hpa, happ, lessonsEndpoint, hstudent, hnot]

set_option maxRecDepth 100000 in
/-- Counterexample to C8 as stated, on the sample state. A validly signed
callback whose order status is "bogus", which is not "approved", leaves the order
in state `other`, not `failed`; and when the student already has the module `m1`
of the offer, a validly signed declined callback is answered 200, the order
becomes `failed`, and the lessons of `m1` are still served with 200. -/
theorem settlement_other_and_prior_access :
    (({ sampleCallback with OrderStatus := "bogus" } : Callback).signedWith
        "secret").validateSignature "secret" = true
    ∧ (getById sampleStore.orders "6008153f3dab4fb0573d1f96").map Order.Status = some "created"
    ∧ (callbackEndpoint sampleClient sampleStore 1
        (({ sampleCallback with OrderStatus := "bogus" } : Callback).signedWith "secret")).1 = 200
    ∧ (getById (callbackEndpoint sampleClient sampleStore 1
        (({ sampleCallback with OrderStatus := "bogus" } : Callback).signedWith
          "secret")).2.orders "6008153f3dab4fb0573d1f96").map Order.Status = some "other"
    ∧ (sampleCallback.signedWith "secret").OrderStatus = "declined"
    ∧ (sampleCallback.signedWith "secret").validateSignature "secret" = true
    ∧ (callbackEndpoint sampleClient sampleStoreWithAccess 1
        (sampleCallback.signedWith "secret")).1 = 200
    ∧ (getById (callbackEndpoint sampleClient sampleStoreWithAccess 1
        (sampleCallback.signedWith "secret")).2.orders "6008153f3dab4fb0573d1f96").map
          Order.Status = some "failed"
    ∧ lessonsEndpoint (callbackEndpoint sampleClient sampleStoreWithAccess 1
        (sampleCallback.signedWith "secret")).2 "u1" "m1" = 200 := by
  rw [callbackEndpoint_of_valid sampleClient sampleStore 1 _
      (validateSignature_signedWith { sampleCallback with OrderStatus := "bogus" } "secret"),
    callbackEndpoint_of_valid sampleClient sampleStoreWithAccess 1 _
      (validateSignature_signedWith sampleCallback "secret")]
  refine ⟨validateSignature_signedWith _ _, by decide!, rfl, by decide!, rfl,
    validateSignature_signedWith _ _, rfl, by decide!, by decide!⟩

set_option maxRecDepth 100000 in
/-- Witness of C8 on the sample state: the approved callback makes the order
`paid` and opens the module `m2`, the declined one makes it `failed` and the
module stays closed. -/
theorem callback_settles_created_order_witness :
    (callbackEndpoint sampleClient sampleStore 1
        (({ sampleCallback with OrderStatus := "approved" } : Callback).signedWith
          "secret")).1 = 200
    ∧ (getById (callbackEndpoint sampleClient sampleStore 1
        (({ sampleCallback with OrderStatus := "approved" } : Callback).signedWith
          "secret")).2.orders "6008153f3dab4fb0573d1f96").map Order.Status = some "paid"
    ∧ lessonsEndpoint (callbackEndpoint sampleClient sampleStore 1
        (({ sampleCallback with OrderStatus := "approved" } : Callback).signedWith
          "secret")).2 "u1" "m2" = 200
    ∧ (getById (callbackEndpoint sampleClient sampleStore 1
        (sampleCallback.signedWith "secret")).2.orders "6008153f3dab4fb0573d1f96").map
          Order.Status = some "failed"
    ∧ lessonsEndpoint (callbackEndpoint sampleClient sampleStore 1
        (sampleCallback.signedWith "secret")).2 "u1" "m2" = 403 :=
  have ha := callback_settles_created_order sampleClient sampleStore 1
    (({ sampleCallback with OrderStatus := "approved" } : Callback).signedWith "secret")
    sampleOrder (validateSignature_signedWith _ _) (by decide!) (by decide!)
  have hd := callback_settles_created_order sampleClient sampleStore 1
    (sampleCallback.signedWith "secret")
    sampleOrder (validateSignature_signedWith _ _) (by decide!) (by decide!)
  ⟨ha.1, ha.2.1, ha.2.2 ⟨"u1", [], []⟩ ⟨"f1", ["c1"], ["m1", "m2"]⟩ (by decide!) (by decide!)
      "m2" (by decide) (by decide),
    hd.2.1, hd.2.2 ⟨"u1", [], []⟩ ⟨"f1", ["c1"], ["m1", "m2"]⟩ (by decide!) (by decide!) "m2"
      (by decide) (by decide)⟩

/-! ## Signing by wire name -/

theorem wire_sortedKeys (c : Callback) :
    sortStrings (c.wireSignedParams.map Prod.fst)
      = ["actual_amount", "actual_currency", "additional_info", "amount", "approval_code",
         "card_bin", "card_type", "currency", "eci", "fee", "masked_card", "merchant_data",
         "merchant_id", "order_id", "order_status", "order_time", "payment_id",
         "payment_system", "product_id", "rectoken", "rectoken_lifetime", "response_code",
         "response_description", "response_status", "reversal_amount", "rrn",
         "sender_account", "sender_cell_phone", "sender_email", "settlement_amount",
         "settlement_currency", "settlement_date", "tran_type", "verification_status"] := by
  show sortStrings ["order_id", "merchant_id", "amount", "currency", "order_status",
    "response_status", "tran_type", "sender_cell_phone", "sender_account", "card_bin",
    "masked_card", "card_type", "rrn", "approval_code", "response_code",
    "response_description", "reversal_amount", "settlement_amount", "settlement_currency",
    "order_time", "settlement_date", "eci", "fee", "payment_system", "sender_email",
    "payment_id", "actual_amount", "actual_currency", "merchant_data", "verification_status",
    "rectoken", "rectoken_lifetime", "product_id", "additional_info"] = _
  decide!

/-- The values that signing by wire name signs, in its order: `rrn` comes
after `reversal_amount`. -/
theorem wire_signatureString (c : Callback) (p : String) :
    signatureString c.wireSignedParams p
      = "|".intercalate (p :: [Value.str c.ActualAmount, Value.str c.ActualCurrency,
          Value.str c.AdditionalInfo, Value.str c.Amount, Value.str c.ApprovalCode,
          Value.int c.CardBin, Value.str c.CardType, Value.str c.Currency, Value.str c.ECI,
          Value.str c.Fee, Value.str c.MaskedCard, Value.str c.MerchantData,
          Value.int c.MerchantId, Value.str c.OrderId, Value.str c.OrderStatus,
          Value.str c.OrderTime, Value.int c.PaymentId, Value.str c.PaymentSystem,
          Value.str c.ProductId, Value.str c.Rectoken,
          Value.str c.RectokenLifetime, nested c.ResponseCode,
          Value.str c.ResponseDescription,
          Value.str c.ResponseStatus, Value.str c.ReversalAmount, Value.str c.RRN,
          Value.str c.SenderAccount,
          Value.str c.SenderCellPhone, Value.str c.SenderEmail, Value.str c.SettlementAmount,
          Value.str c.SettlementCurrency, Value.str c.SettlementDate, Value.str c.TranType,
          Value.str c.VerificationStatus].filterMap token) := by
  rw [signatureString_eq, specSignedString, wire_sortedKeys]
  rfl

/-- The two orders differ in the place of `RRN` only: a callback without a
retrieval reference number has the same signature either way. -/
theorem wireSignature_eq_of_RRN_empty (c : Callback) (s : String) (h : c.RRN = "") :
    generateSignature c.signedParams s = c.wireSignature s := by
  rw [Callback.wireSignature, generateSignature, generateSignature, callback_signatureString,
    wire_signatureString, h]
  rfl

/-! ## C9: signing by Go field name against signing by wire name -/

set_option maxRecDepth 100000 in
theorem rrnCallback_signatures :
    generateSignature rrnCallback.signedParams "secret" ≠ rrnCallback.wireSignature "secret" := by
  rw [Callback.wireSignature, generateSignature, generateSignature, callback_signatureString,
    wire_signatureString]
  decide!

set_option maxRecDepth 100000 in
/-- C9 (failing input): on the sample callback with the retrieval reference
number "111111111111", `validateSignature` signs the number before the response
code and the response status, in the order of the Go names `RRN`, `ResponseCode`,
`ResponseStatus`, whereas by wire name `rrn` comes after `response_code` and
`response_status`. The two signatures differ, and the callback signed by wire
name is rejected. -/
theorem signing_order_differs :
    signatureString rrnCallback.signedParams "secret"
      = "secret|100|0|USD|1396424|6008153f3dab4fb0573d1f96|declined|0|111111111111|1011|success"
    ∧ signatureString rrnCallback.wireSignedParams "secret"
      = "secret|100|0|USD|1396424|6008153f3dab4fb0573d1f96|declined|0|1011|success|111111111111"
    ∧ generateSignature rrnCallback.signedParams "secret" ≠ rrnCallback.wireSignature "secret"
    ∧ ({ rrnCallback with Signature := rrnCallback.wireSignature "secret" } :
        Callback).validateSignature "secret" = false
    ∧ FondyClient.ValidateCallback sampleClient
        (Input.callback { rrnCallback with Signature := rrnCallback.wireSignature "secret" })
        = some "invalid signature" := by
  have hfalse : ({ rrnCallback with Signature := rrnCallback.wireSignature "secret" } :
      Callback).validateSignature "secret" = false := by
    rw [← Bool.not_eq_true, validateSignature_iff]
    intro h
    have e : generateSignature ({ rrnCallback with
          Signature := rrnCallback.wireSignature "secret" } : Callback).signedParams "secret"
        = generateSignature rrnCallback.signedParams "secret" :=
      congrArg (fun ps => generateSignature ps "secret")
        (signedParams_set rrnCallback (rrnCallback.wireSignature "secret")
          rrnCallback.ResponseSignatureString)
    exact rrnCallback_signatures (e.symm.trans h.symm)
  refine ⟨by rw [callback_signatureString]; decide!, by rw [wire_signatureString]; decide!,
    rrnCallback_signatures, hfalse, ValidateCallback_of_false sampleClient _ hfalse⟩

/-! ## C10: the signed string is not injective -/

/-- The part of the signed string that the adjacent fields `OrderId` and
`OrderStatus` contribute. -/
theorem callback_signatureString_data (c : Callback) (p : String) :
    (signatureString c.signedParams p).data
      = p.data
        ++ ([Value.str c.ActualAmount, Value.str c.ActualCurrency,
          Value.str c.AdditionalInfo, Value.str c.Amount, Value.str c.ApprovalCode,
          Value.int c.CardBin, Value.str c.CardType, Value.str c.Currency, Value.str c.ECI,
          Value.str c.Fee, Value.str c.MaskedCard, Value.str c.MerchantData,
          Value.int c.MerchantId].filterMap token).flatMap (fun t => '|' :: t.data)
        ++ ([Value.str c.OrderId, Value.str c.OrderStatus].filterMap token).flatMap
            (fun t => '|' :: t.data)
        ++ ([Value.str c.OrderTime, Value.int c.PaymentId, Value.str c.PaymentSystem,
          Value.str c.ProductId, Value.str c.RRN, Value.str c.Rectoken,
          Value.str c.RectokenLifetime, nested c.ResponseCode,
          Value.str c.ResponseDescription,
          Value.str c.ResponseStatus, Value.str c.ReversalAmount, Value.str c.SenderAccount,
          Value.str c.SenderCellPhone, Value.str c.SenderEmail, Value.str c.SettlementAmount,
          Value.str c.SettlementCurrency, Value.str c.SettlementDate, Value.str c.TranType,
          Value.str c.VerificationStatus].filterMap token).flatMap (fun t => '|' :: t.data) := by
  rw [callback_signatureString, intercalate_cons_data, List.append_assoc, List.append_assoc,
    ← List.flatMap_append, ← List.flatMap_append, ← List.filterMap_append,
    ← List.filterMap_append]
  rfl

theorem signatureString_eq_of_OrderId_OrderStatus (c : Callback) (a b a' b' p : String)
    (h : ([Value.str a, Value.str b].filterMap token).flatMap (fun t => '|' :: t.data)
      = ([Value.str a', Value.str b'].filterMap token).flatMap (fun t => '|' :: t.data)) :
    signatureString ({ c with OrderId := a, OrderStatus := b } : Callback).signedParams p
      = signatureString ({ c with OrderId := a', OrderStatus := b' } : Callback).signedParams p := by
  apply String.ext
  rw [callback_signatureString_data, callback_signatureString_data]
  simp only [h]

theorem append_ne_empty (x y : String) (hy : y ≠ "") : x ++ y ≠ "" := by
  intro h
  have hd := congrArg String.data h
  rw [String.data_append] at hd
  have : y.data = [] := (List.append_eq_nil.1 hd).2
  exact hy (String.ext this)

/-- C10: the signed string does not determine the signed fields. For every
callback `c`, non-empty `x` and non-empty `v`: the callback with `OrderId` equal
to `x ++ "|approved"` and an empty `OrderStatus`, and the one with `OrderId`
equal to `x` and `OrderStatus` equal to "approved", differ in both signed fields
and have the same signature under every password, so that each validates exactly
when the other does, and the signature of the first is accepted on both; and the
same holds when the value `v` is moved from `OrderId` to the adjacent field
`OrderStatus`, the other one being empty. -/
theorem signature_not_injective (c : Callback) (x v : String) (hx : x ≠ "") (hv : v ≠ "") :
    (({ c with OrderId := x ++ "|approved", OrderStatus := "" } : Callback).OrderId
        ≠ ({ c with OrderId := x, OrderStatus := "approved" } : Callback).OrderId
      ∧ ({ c with OrderId := x ++ "|approved", OrderStatus := "" } : Callback).OrderStatus
        ≠ ({ c with OrderId := x, OrderStatus := "approved" } : Callback).OrderStatus
      ∧ ∀ p : String,
        generateSignature
            ({ c with OrderId := x ++ "|approved", OrderStatus := "" } : Callback).signedParams p
          = generateSignature
            ({ c with OrderId := x, OrderStatus := "approved" } : Callback).signedParams p
        ∧ (({ c with OrderId := x ++ "|approved", OrderStatus := "" } :
              Callback).validateSignature p
            = ({ c with OrderId := x, OrderStatus := "approved" } : Callback).validateSignature p)
        ∧ (({ c with OrderId := x ++ "|approved", OrderStatus := "" } : Callback).signedWith
              p).validateSignature p = true
        ∧ ({ ({ c with OrderId := x, OrderStatus := "approved" } : Callback) with
              Signature := (({ c with OrderId := x ++ "|approved", OrderStatus := "" } :
                Callback).signedWith p).Signature } : Callback).validateSignature p = true)
    ∧ (({ c with OrderId := v, OrderStatus := "" } : Callback).OrderId
        ≠ ({ c with OrderId := "", OrderStatus := v } : Callback).OrderId
      ∧ ({ c with OrderId := v, OrderStatus := "" } : Callback).OrderStatus
        ≠ ({ c with OrderId := "", OrderStatus := v } : Callback).OrderStatus
      ∧ ∀ p : String,
        generateSignature ({ c with OrderId := v, OrderStatus := "" } : Callback).signedParams p
          = generateSignature
            ({ c with OrderId := "", OrderStatus := v } : Callback).signedParams p
        ∧ (({ c with OrderId := v, OrderStatus := "" } : Callback).validateSignature p
            = ({ c with OrderId := "", OrderStatus := v } : Callback).validateSignature p)
        ∧ (({ c with OrderId := v, OrderStatus := "" } : Callback).signedWith
              p).validateSignature p = true
        ∧ ({ ({ c with OrderId := "", OrderStatus := v } : Callback) with
              Signature := (({ c with OrderId := v, OrderStatus := "" } :
                Callback).signedWith p).Signature } : Callback).validateSignature p = true) := by
  have hxa : x ++ "|approved" ≠ "" := append_ne_empty x "|approved" (by decide)
  have h1 : ∀ p, signatureString
      ({ c with OrderId := x ++ "|approved", OrderStatus := "" } : Callback).signedParams p
      = signatureString
        ({ c with OrderId := x, OrderStatus := "approved" } : Callback).signedParams p := by
    intro p
    apply signatureString_eq_of_OrderId_OrderStatus
    simp [token, hx, hxa, List.flatMap_cons, String.data_append]
  have h2 : ∀ p, signatureString
      ({ c with OrderId := v, OrderStatus := "" } : Callback).signedParams p
      = signatureString ({ c with OrderId := "", OrderStatus := v } : Callback).signedParams p := by
    intro p
    apply signatureString_eq_of_OrderId_OrderStatus
    simp [token, hv, List.flatMap_cons]
  have hacc : ∀ (a b : Callback) (p : String),
      signatureString a.signedParams p = signatureString b.signedParams p →
      ({ b with Signature := (a.signedWith p).Signature } : Callback).validateSignature p
        = true := by
    intro a b p hab
    rw [validateSignature_iff]
    show generateSignature a.signedParams p = _
    rw [generateSignature, generateSignature, hab]
    exact congrArg (fun ps => hexEncode (sha1Sum (strBytes (signatureString ps p))))
      (signedParams_set b (generateSignature a.signedParams p) b.ResponseSignatureString).symm
  refine ⟨⟨?_, by simp, fun p => ⟨by rw [generateSignature, generateSignature, h1 p], ?_,
      validateSignature_signedWith _ _, hacc _ _ p (h1 p)⟩⟩,
    ⟨by simpa using hv, by simpa using fun h : "" = v => hv h.symm,
      fun p => ⟨by rw [generateSignature, generateSignature, h2 p], ?_,
        validateSignature_signedWith _ _, hacc _ _ p (h2 p)⟩⟩⟩
  · intro h
    have hd := congrArg String.length h
    simp only [String.length_append] at hd
    have : "|approved".length = 9 := by decide
    omega
  · simp only [Callback.validateSignature, generateSignature, h1 p]
  · simp only [Callback.validateSignature, generateSignature, h2 p]

/-- Witness of C10 on the zero callback, for the order id "6008", the value
"approved" and the password "secret". -/
theorem signature_not_injective_witness :
    "6008" ≠ "" ∧ "approved" ≠ ""
    ∧ generateSignature
        ({ Callback.zero with OrderId := "6008" ++ "|approved", OrderStatus := "" } :
          Callback).signedParams "secret"
      = generateSignature
        ({ Callback.zero with OrderId := "6008", OrderStatus := "approved" } :
          Callback).signedParams "secret"
    ∧ generateSignature
        ({ Callback.zero with OrderId := "approved", OrderStatus := "" } :
          Callback).signedParams "secret"
      = generateSignature
        ({ Callback.zero with OrderId := "", OrderStatus := "approved" } :
          Callback).signedParams "secret" :=
  ⟨by decide, by decide,
    ((signature_not_injective Callback.zero "6008" "approved" (by decide)
      (by decide)).1.2.2 "secret").1,
    ((signature_not_injective Callback.zero "6008" "approved" (by decide)
      (by decide)).2.2.2 "secret").1⟩

/-! ## C11: `getStudentId` -/

theorem Get_Set (c : Context) (key : String) (value : Value) :
    (c.Set key value).Get key = some value := by
  simp [Context.Get, Context.Set, List.find?_cons]

/-- What `getStudentId` returns, by the content of the context: an error when
the key is missing or the value is not a string, the denoted id when the string
is a valid id, and the zero id without an error when it is not. -/
theorem getStudentId_cases (c : Context) :
    (c.Get studentCtx = none →
      getStudentId c = (ObjectID.zero, some "studentCtx not found"))
    ∧ (∀ v, c.Get studentCtx = some v → (∀ s, v ≠ Value.str s) →
      getStudentId c = (ObjectID.zero, some "studentCtx is of invalid type"))
    ∧ (∀ s id, c.Get studentCtx = some (Value.str s) → ObjectIDFromHex s = some id →
      getStudentId c = (id, none))
    ∧ (∀ s, c.Get studentCtx = some (Value.str s) → ObjectIDFromHex s = none →
      getStudentId c = (ObjectID.zero, none)) := by
  refine ⟨fun h => by simp [getStudentId, h], ?_, fun s id h hid => by simp [getStudentId, h, hid],
    fun s h hid => by simp [getStudentId, h, hid]⟩
  intro v h hv
  cases v with
  | str s => exact absurd rfl (hv s)
  | int n => simp [getStudentId, h]
  | bool b => simp [getStudentId, h]
  | nil => simp [getStudentId, h]
  | struct m t => simp [getStudentId, h]
  | other t => simp [getStudentId, h]

theorem parseAuthHeader_empty (Parse : String → String × Option String) (keys : Params) :
    parseAuthHeader Parse ⟨"", keys⟩ = ("", some "empty auth header") := by
  simp [parseAuthHeader]

set_option maxRecDepth 100000 in
/-- C11 (failing input): the empty string is not a valid id, a request without
`Authorization` header makes `studentIdentity` store the empty string under the
student key, and on that context, as on any context that holds a string which
is not a valid id, `getStudentId` returns the zero id with a `nil` error. A
valid id is returned as the bytes it denotes, a missing key and a value that is
not a string give an error. -/
theorem getStudentId_invalid_hex_nil_error :
    ObjectIDFromHex "" = none
    ∧ getStudentId ⟨"", [("userId", Value.str "")]⟩ = (ObjectID.zero, none)
    ∧ ObjectIDFromHex "not-a-valid-object-id-hex" = none
    ∧ getStudentId ⟨"", [("userId", Value.str "not-a-valid-object-id-hex")]⟩
        = (ObjectID.zero, none)
    ∧ (∀ (newResponse : Context → Nat → String → Context)
        (Parse : String → String × Option String) (keys : Params),
        (studentIdentity newResponse Parse ⟨"", keys⟩).Get studentCtx = some (Value.str "")
        ∧ getStudentId (studentIdentity newResponse Parse ⟨"", keys⟩) = (ObjectID.zero, none))
    ∧ getStudentId ⟨"", [("userId", Value.str "6008153f3dab4fb0573d1f96")]⟩
        = (⟨[0x60, 0x08, 0x15, 0x3f, 0x3d, 0xab, 0x4f, 0xb0, 0x57, 0x3d, 0x1f, 0x96]⟩, none)
    ∧ getStudentId ⟨"", []⟩ = (ObjectID.zero, some "studentCtx not found")
    ∧ getStudentId ⟨"", [("userId", Value.int 7)]⟩
        = (ObjectID.zero, some "studentCtx is of invalid type") := by
  refine ⟨by decide!, by decide!, by decide!, by decide!, ?_, by decide!, by decide!, by decide!⟩
  intro newResponse Parse keys
  have hget : (studentIdentity newResponse Parse ⟨"", keys⟩).Get studentCtx
      = some (Value.str "") := by
    simp only [studentIdentity, parseAuthHeader_empty]
    exact Get_Set _ _ _
  exact ⟨hget, (getStudentId_cases _).2.2.2 "" hget (by decide!)⟩

end Courses
